import Mathlib

/-!
Shallow embedding of the catalog-scheme resolution engine for modular
orthopedic implant components (SlicerDataAnalyzer repository).

Shape labels are opaque ordered integers; we embed them as `Int`.  Each
product line's enumerators are consecutive integers starting at the
product's registry offset.  Per-product classifier predicates, similar-label
resolvers, landmark tables and transform composers are transcribed from the
per-product scheme headers.  Millimetre coordinates (C++ `float`) are
idealized as real numbers.
-/

set_option maxHeartbeats 4000000

set_option maxRecDepth 10000

set_option linter.unusedVariables false

namespace SboML

/-- Integer clamp into the closed interval from lo to hi (lo ≤ hi at all call
sites), as used by SboML::clamp in the source. -/
def clamp (v lo hi : Int) : Int := max lo (min v hi)

/-- Closed-range membership test on labels, as SboML::in_closed_range. -/
def in_closed_range (l a b : Int) : Bool := decide (a ≤ l) && decide (l ≤ b)

end SboML

/-- Requested or assigned anatomical side of an implant configuration. -/
inductive SboAnatomLocation where
  | None
  | Left
  | Right
deriving DecidableEq

/-- The mutable implant-configuration record a caller builds and the product
schemes validate and transform (SboFemImplantConfig).  An unset optional
label (isSet false in the source) is the Option value none; product-name
strings default to the empty string. -/
structure SboFemImplantConfig where
  requestedSide : SboAnatomLocation
  stemLabel : Int
  headLabel : Int
  neckLabel : Option Int := none
  cutPlaneLabel : Option Int := none
  stemProductName : String := ""
  distalShaftProductName : String := ""
  headProductName : String := ""
  neckProductName : String := ""
  implantSide : SboAnatomLocation := SboAnatomLocation.None
  validAssembly : Bool := false
deriving DecidableEq

/-- A 3D point or vector (SboPoint3 / SboVector3), float coordinates
idealized as reals. -/
abbrev SboPoint3 : Type := Fin 3 → ℝ

/-- Point constructor SboPoint3(x,y,z). -/
noncomputable def pt3 (x y z : ℝ) : SboPoint3 := ![x, y, z]

/-- A rigid transform (SboMatrix3): a linear part and a translation part.
Multiplication composes transforms, rightmost applied first to a point. -/
structure SboMatrix3 where
  linear : Matrix (Fin 3) (Fin 3) ℝ
  trans : SboPoint3

noncomputable instance : Mul SboMatrix3 :=
  ⟨fun m n => ⟨m.linear * n.linear, m.linear.mulVec n.trans + m.trans⟩⟩

namespace SboML

/-- Pure translation transform SboML::transMat3. -/
noncomputable def transMat3 (v : SboPoint3) : SboMatrix3 := ⟨1, v⟩

/-- Euclidean norm of a 3D vector. -/
noncomputable def norm3 (v : SboPoint3) : ℝ :=
  Real.sqrt (v 0 ^ 2 + v 1 ^ 2 + v 2 ^ 2)

/-- Unit vector in the direction of v, SboML::unit3. -/
noncomputable def unit3 (v : SboPoint3) : SboPoint3 := (norm3 v)⁻¹ • v

end SboML

namespace Corail

/-- Modelled from the spec: the fixed numeric label-range offset supplied by
the product registry for the Corail product
(hproj::JNJ::productRangeStartsAt, declared outside src/).  All classifier
and resolver behaviour is invariant under this base; it is fixed to 0 here. -/
def ProductRangeStartsAt : Int := 0

def STEM_KHO_A_135_0 : Int := ProductRangeStartsAt + 90

def STEM_KHO_A_135_9 : Int := ProductRangeStartsAt + 99

def STEM_KS_STD135_0 : Int := ProductRangeStartsAt + 100

def STEM_KS_STD135_5 : Int := ProductRangeStartsAt + 105

def STEM_KS_STD135_10 : Int := ProductRangeStartsAt + 110

def STEM_KA_STD135_0 : Int := ProductRangeStartsAt + 111

def STEM_KA_STD135_5 : Int := ProductRangeStartsAt + 116

def STEM_KA_STD135_10 : Int := ProductRangeStartsAt + 121

def STEM_KHO_S_135_0 : Int := ProductRangeStartsAt + 122

def STEM_KHO_S_135_9 : Int := ProductRangeStartsAt + 131

def STEM_KLA_125_0 : Int := ProductRangeStartsAt + 132

def STEM_KLA_125_9 : Int := ProductRangeStartsAt + 141

def STEM_STD125_S_0 : Int := ProductRangeStartsAt + 142

def STEM_STD125_S_3 : Int := ProductRangeStartsAt + 145

def STEM_STD125_A_0 : Int := ProductRangeStartsAt + 146

def STEM_STD125_A_7 : Int := ProductRangeStartsAt + 153

def STEM_SN_S_0 : Int := ProductRangeStartsAt + 154

def STEM_SN_S_3 : Int := ProductRangeStartsAt + 157

def STEM_SN_A_0 : Int := ProductRangeStartsAt + 158

def STEM_SN_A_7 : Int := ProductRangeStartsAt + 165

def CUTPLANE : Int := ProductRangeStartsAt + 166

def HEAD_M4 : Int := ProductRangeStartsAt + 167

def HEAD_P0 : Int := ProductRangeStartsAt + 168

def HEAD_P4 : Int := ProductRangeStartsAt + 169

def HEAD_P8 : Int := ProductRangeStartsAt + 170

def RANGE_CCD_KS_STD135 : Int := ProductRangeStartsAt + 171

def RANGE_CCD_KA_STD135 : Int := ProductRangeStartsAt + 172

def RANGE_CCD_KHO_S_135 : Int := ProductRangeStartsAt + 173

def RANGE_CCD_KHO_A_135 : Int := ProductRangeStartsAt + 174

def RANGE_CCD_KLA_125 : Int := ProductRangeStartsAt + 175

def RANGE_CCD_STD125_S : Int := ProductRangeStartsAt + 176

def RANGE_CCD_STD125_A : Int := ProductRangeStartsAt + 177

def RANGE_CCD_SN_S : Int := ProductRangeStartsAt + 178

def RANGE_CCD_SN_A : Int := ProductRangeStartsAt + 179

def lowerS3UID : Int := STEM_KHO_A_135_0

def upperS3UID : Int := RANGE_CCD_SN_A

def defaultS3StemRUID : Int := STEM_KA_STD135_5

def defaultS3HeadUID : Int := HEAD_P0

def isCCD_KS_STD135 (l : Int) : Bool :=
  SboML.in_closed_range l STEM_KS_STD135_0 STEM_KS_STD135_10

def isCCD_KA_STD135 (l : Int) : Bool :=
  SboML.in_closed_range l STEM_KA_STD135_0 STEM_KA_STD135_10

def isCCD_KHO_S_135 (l : Int) : Bool :=
  SboML.in_closed_range l STEM_KHO_S_135_0 STEM_KHO_S_135_9

def isCCD_KHO_A_135 (l : Int) : Bool :=
  SboML.in_closed_range l STEM_KHO_A_135_0 STEM_KHO_A_135_9

def isCCD_KLA_125 (l : Int) : Bool :=
  SboML.in_closed_range l STEM_KLA_125_0 STEM_KLA_125_9

def isCCD_STD125_S (l : Int) : Bool :=
  SboML.in_closed_range l STEM_STD125_S_0 STEM_STD125_S_3

def isCCD_STD125_A (l : Int) : Bool :=
  SboML.in_closed_range l STEM_STD125_A_0 STEM_STD125_A_7

def isCCD_SN_S (l : Int) : Bool :=
  SboML.in_closed_range l STEM_SN_S_0 STEM_SN_S_3

def isCCD_SN_A (l : Int) : Bool :=
  SboML.in_closed_range l STEM_SN_A_0 STEM_SN_A_7

def isStem (l : Int) : Bool :=
  SboML.in_closed_range l STEM_KHO_A_135_0 STEM_SN_A_7

def isHead (l : Int) : Bool :=
  SboML.in_closed_range l HEAD_M4 HEAD_P8

def hasCollar (l : Int) : Bool :=
  isCCD_KHO_A_135 l || isCCD_KA_STD135 l || isCCD_KLA_125 l ||
    isCCD_STD125_A l || isCCD_SN_A l

/-- Advance or retreat one label within the same sub-range only; stepping
past a sub-range boundary returns the original label. -/
def nextPrevStem (aL : Int) (aNext : Bool) : Int :=
  let nL := aL + (if aNext then 1 else -1)
  if isCCD_KS_STD135 aL then (if isCCD_KS_STD135 nL then nL else aL)
  else if isCCD_KA_STD135 aL then (if isCCD_KA_STD135 nL then nL else aL)
  else if isCCD_KHO_S_135 aL then (if isCCD_KHO_S_135 nL then nL else aL)
  else if isCCD_KHO_A_135 aL then (if isCCD_KHO_A_135 nL then nL else aL)
  else if isCCD_STD125_S aL then (if isCCD_STD125_S nL then nL else aL)
  else if isCCD_STD125_A aL then (if isCCD_STD125_A nL then nL else aL)
  else if isCCD_SN_S aL then (if isCCD_SN_S nL then nL else aL)
  else if isCCD_SN_A aL then (if isCCD_SN_A nL then nL else aL)
  else (if isCCD_KLA_125 nL then nL else aL)

/-- Range-marker label of the sub-range containing a stem label; the default
label (0 here) stands for the default-constructed label returned on the
fallthrough path of the source. -/
def getCCDRange (aL : Int) : Int :=
  if isCCD_KS_STD135 aL then RANGE_CCD_KS_STD135
  else if isCCD_KA_STD135 aL then RANGE_CCD_KA_STD135
  else if isCCD_KHO_S_135 aL then RANGE_CCD_KHO_S_135
  else if isCCD_KHO_A_135 aL then RANGE_CCD_KHO_A_135
  else if isCCD_KLA_125 aL then RANGE_CCD_KLA_125
  else if isCCD_STD125_S aL then RANGE_CCD_STD125_S
  else if isCCD_STD125_A aL then RANGE_CCD_STD125_A
  else if isCCD_SN_S aL then RANGE_CCD_SN_S
  else if isCCD_SN_A aL then RANGE_CCD_SN_A
  else 0

def getCCDStartIdx (aL : Int) : Int :=
  if isCCD_KHO_A_135 aL then 0
  else if isCCD_KS_STD135 aL then 10
  else if isCCD_KA_STD135 aL then 21
  else if isCCD_KHO_S_135 aL then 32
  else if isCCD_KLA_125 aL then 42
  else if isCCD_STD125_S aL then 52
  else if isCCD_STD125_A aL then 56
  else if isCCD_SN_S aL then 64
  else if isCCD_SN_A aL then 68
  else 0

/-- Per-(source, target) offset-adjustment rule table, transcribed branch by
branch from getSimilarOffset; an unmatched pair leaves the offset
unchanged. -/
def getSimilarOffset (aOffset aSourceR aTargetR : Int) : Int :=
  if aSourceR = RANGE_CCD_KS_STD135 then
    if aTargetR = RANGE_CCD_KHO_S_135 then SboML.clamp (aOffset - 1) 0 9
    else if aTargetR = RANGE_CCD_KHO_A_135 then SboML.clamp (aOffset - 1) 0 9
    else if aTargetR = RANGE_CCD_KLA_125 then SboML.clamp (aOffset - 1) 0 9
    else if aTargetR = RANGE_CCD_STD125_S then SboML.clamp (aOffset + 1) 0 3
    else if aTargetR = RANGE_CCD_STD125_A then SboML.clamp (aOffset + 1) 0 7
    else if aTargetR = RANGE_CCD_SN_S then SboML.clamp (aOffset + 1) 0 3
    else if aTargetR = RANGE_CCD_SN_A then SboML.clamp (aOffset + 1) 0 7
    else aOffset
  else if aSourceR = RANGE_CCD_KA_STD135 then
    if aTargetR = RANGE_CCD_KHO_S_135 then SboML.clamp (aOffset - 1) 0 9
    else if aTargetR = RANGE_CCD_KHO_A_135 then SboML.clamp (aOffset - 1) 0 9
    else if aTargetR = RANGE_CCD_KLA_125 then SboML.clamp (aOffset - 1) 0 9
    else if aTargetR = RANGE_CCD_STD125_S then SboML.clamp (aOffset + 1) 0 3
    else if aTargetR = RANGE_CCD_STD125_A then SboML.clamp (aOffset + 1) 0 7
    else if aTargetR = RANGE_CCD_SN_S then SboML.clamp (aOffset + 1) 0 3
    else if aTargetR = RANGE_CCD_SN_A then SboML.clamp (aOffset + 1) 0 7
    else aOffset
  else if aSourceR = RANGE_CCD_KHO_S_135 ∨ aSourceR = RANGE_CCD_KHO_A_135 ∨
      aSourceR = RANGE_CCD_KLA_125 then
    if aTargetR = RANGE_CCD_KS_STD135 then SboML.clamp (aOffset + 1) 0 10
    else if aTargetR = RANGE_CCD_KA_STD135 then SboML.clamp (aOffset + 1) 0 10
    else if aTargetR = RANGE_CCD_STD125_S then SboML.clamp (aOffset + 2) 0 3
    else if aTargetR = RANGE_CCD_STD125_A then SboML.clamp (aOffset + 2) 0 7
    else if aTargetR = RANGE_CCD_SN_S then SboML.clamp (aOffset + 2) 0 3
    else if aTargetR = RANGE_CCD_SN_A then SboML.clamp (aOffset + 2) 0 7
    else aOffset
  else if aSourceR = RANGE_CCD_STD125_S then
    if aTargetR = RANGE_CCD_KS_STD135 then SboML.clamp (aOffset - 1) 0 10
    else if aTargetR = RANGE_CCD_KA_STD135 then SboML.clamp (aOffset - 1) 0 10
    else if aTargetR = RANGE_CCD_KHO_S_135 then SboML.clamp (aOffset - 2) 0 9
    else if aTargetR = RANGE_CCD_KHO_A_135 then SboML.clamp (aOffset - 2) 0 9
    else if aTargetR = RANGE_CCD_KLA_125 then SboML.clamp (aOffset - 2) 0 9
    else if aTargetR = RANGE_CCD_STD125_A then SboML.clamp aOffset 0 7
    else if aTargetR = RANGE_CCD_SN_A then SboML.clamp aOffset 0 7
    else aOffset
  else if aSourceR = RANGE_CCD_STD125_A then
    if aTargetR = RANGE_CCD_KS_STD135 then SboML.clamp (aOffset - 1) 0 10
    else if aTargetR = RANGE_CCD_KA_STD135 then SboML.clamp (aOffset - 1) 0 10
    else if aTargetR = RANGE_CCD_KHO_S_135 then SboML.clamp (aOffset - 2) 0 9
    else if aTargetR = RANGE_CCD_KHO_A_135 then SboML.clamp (aOffset - 2) 0 9
    else if aTargetR = RANGE_CCD_KLA_125 then SboML.clamp (aOffset - 2) 0 9
    else if aTargetR = RANGE_CCD_STD125_S then SboML.clamp aOffset 0 3
    else if aTargetR = RANGE_CCD_SN_S then SboML.clamp aOffset 0 3
    else aOffset
  else if aSourceR = RANGE_CCD_SN_S then
    if aTargetR = RANGE_CCD_KS_STD135 then SboML.clamp (aOffset - 1) 0 10
    else if aTargetR = RANGE_CCD_KA_STD135 then SboML.clamp (aOffset - 1) 0 10
    else if aTargetR = RANGE_CCD_KHO_S_135 then SboML.clamp (aOffset - 2) 0 9
    else if aTargetR = RANGE_CCD_KHO_A_135 then SboML.clamp (aOffset - 2) 0 9
    else if aTargetR = RANGE_CCD_KLA_125 then SboML.clamp (aOffset - 2) 0 9
    else if aTargetR = RANGE_CCD_STD125_A then SboML.clamp aOffset 0 7
    else if aTargetR = RANGE_CCD_SN_A then SboML.clamp aOffset 0 7
    else aOffset
  else if aSourceR = RANGE_CCD_SN_A then
    if aTargetR = RANGE_CCD_KS_STD135 then SboML.clamp (aOffset - 1) 0 10
    else if aTargetR = RANGE_CCD_KA_STD135 then SboML.clamp (aOffset - 1) 0 10
    else if aTargetR = RANGE_CCD_KHO_S_135 then SboML.clamp (aOffset - 2) 0 9
    else if aTargetR = RANGE_CCD_KHO_A_135 then SboML.clamp (aOffset - 2) 0 9
    else if aTargetR = RANGE_CCD_KLA_125 then SboML.clamp (aOffset - 2) 0 9
    else if aTargetR = RANGE_CCD_STD125_S then SboML.clamp aOffset 0 3
    else if aTargetR = RANGE_CCD_SN_S then SboML.clamp aOffset 0 3
    else aOffset
  else aOffset

/-- Zero-based offset of a stem label within its sub-range. -/
def getOffset (aL : Int) : Int :=
  aL - getCCDStartIdx aL - lowerS3UID

/-- Range-descriptor row of the CCD_CORAIL table: flat start and end index
into the single label space, the range-marker label, and a display name. -/
structure RT where
  startIdx : Int
  endIdx : Int
  label : Int
  name : String

def rKS_STD135 : RT := ⟨10, 20, RANGE_CCD_KS_STD135, "135 STD"⟩

def rKA_STD135 : RT := ⟨21, 31, RANGE_CCD_KA_STD135, "135 STD COLLAR"⟩

def rKHO_S_135 : RT := ⟨32, 41, RANGE_CCD_KHO_S_135, "135 KHO"⟩

def rKHO_A_135 : RT := ⟨0, 9, RANGE_CCD_KHO_A_135, "135 KHO COLLAR"⟩

def rKLA_125 : RT := ⟨42, 51, RANGE_CCD_KLA_125, "125 KLA"⟩

def rSTD125_S : RT := ⟨52, 55, RANGE_CCD_STD125_S, "125 STD"⟩

def rSTD125_A : RT := ⟨56, 63, RANGE_CCD_STD125_A, "125 STD COLLAR"⟩

def rSN_S : RT := ⟨64, 67, RANGE_CCD_SN_S, "135 SN"⟩

def rSN_A : RT := ⟨68, 75, RANGE_CCD_SN_A, "135 SN COLLAR"⟩

def ranges : List RT :=
  [rKS_STD135, rKA_STD135, rKHO_S_135, rKHO_A_135, rKLA_125,
   rSTD125_S, rSTD125_A, rSN_S, rSN_A]

/-- CCD_CORAIL::similarLabel: look up the source and target range rows,
adjust the offset by the rule table, and rebase at the target's start
index.  In the source the two find_if iterators are dereferenced without
a check; the fallback arm is unreachable for stem sources and valid target
ranges and is modelled as returning the source label. -/
def similarLabel (aL aNextCCDRange : Int) : Int :=
  match ranges.find? (fun x => x.label == getCCDRange aL),
      ranges.find? (fun x => x.label == aNextCCDRange) with
  | some itCurrR, some itNextR =>
    let offset := getOffset aL
    let offset := getSimilarOffset offset itCurrR.label itNextR.label
    lowerS3UID + (offset + itNextR.startIdx)
  | _, _ => aL

/-- The directly authored offset-adjustment rules of getSimilarOffset as a
partial shift table: some shift s when the branch for the (source, target)
pair assigns clamp(offset + s) into the target bounds, none when the pair
falls through with the offset unchanged (commented-out or absent rules).
The companion theorem shiftOf_models_getSimilarOffset checks this table
against getSimilarOffset on the whole offset domain. -/
def shiftOf (R1 R2 : Int) : Option Int :=
  if R1 = RANGE_CCD_KS_STD135 ∨ R1 = RANGE_CCD_KA_STD135 then
    if R2 = RANGE_CCD_KHO_S_135 ∨ R2 = RANGE_CCD_KHO_A_135 ∨
        R2 = RANGE_CCD_KLA_125 then some (-1)
    else if R2 = RANGE_CCD_STD125_S ∨ R2 = RANGE_CCD_STD125_A ∨
        R2 = RANGE_CCD_SN_S ∨ R2 = RANGE_CCD_SN_A then some 1
    else none
  else if R1 = RANGE_CCD_KHO_S_135 ∨ R1 = RANGE_CCD_KHO_A_135 ∨
      R1 = RANGE_CCD_KLA_125 then
    if R2 = RANGE_CCD_KS_STD135 ∨ R2 = RANGE_CCD_KA_STD135 then some 1
    else if R2 = RANGE_CCD_STD125_S ∨ R2 = RANGE_CCD_STD125_A ∨
        R2 = RANGE_CCD_SN_S ∨ R2 = RANGE_CCD_SN_A then some 2
    else none
  else if R1 = RANGE_CCD_STD125_S ∨ R1 = RANGE_CCD_STD125_A ∨
      R1 = RANGE_CCD_SN_S ∨ R1 = RANGE_CCD_SN_A then
    if R2 = RANGE_CCD_KS_STD135 ∨ R2 = RANGE_CCD_KA_STD135 then some (-1)
    else if R2 = RANGE_CCD_KHO_S_135 ∨ R2 = RANGE_CCD_KHO_A_135 ∨
        R2 = RANGE_CCD_KLA_125 then some (-2)
    else if (R1 = RANGE_CCD_STD125_S ∧ (R2 = RANGE_CCD_STD125_A ∨ R2 = RANGE_CCD_SN_A)) ∨
        (R1 = RANGE_CCD_STD125_A ∧ (R2 = RANGE_CCD_STD125_S ∨ R2 = RANGE_CCD_SN_S)) ∨
        (R1 = RANGE_CCD_SN_S ∧ (R2 = RANGE_CCD_STD125_A ∨ R2 = RANGE_CCD_SN_A)) ∨
        (R1 = RANGE_CCD_SN_A ∧ (R2 = RANGE_CCD_STD125_S ∨ R2 = RANGE_CCD_SN_S)) then some 0
    else none
  else none

/-- Highest offset of a sub-range, read off the authored range rows. -/
def maxOffsetOf (R : Int) : Int :=
  (((ranges.find? (fun x => x.label == R)).map
      (fun r => r.endIdx - r.startIdx)).getD 0)

/-- A pair of sub-ranges has a directly authored reverse rule when the shift
table holds an entry in both directions. -/
def hasReverseRule (R1 R2 : Int) : Bool :=
  (shiftOf R1 R2).isSome && (shiftOf R2 R1).isSome

/-- The offset loss forced by clamping the shifted offset of l into the
bounds of the target sub-range. -/
def lossOf (l R2 : Int) : Int :=
  match shiftOf (getCCDRange l) R2 with
  | some s =>
    ((getOffset l + s) - SboML.clamp (getOffset l + s) 0 (maxOffsetOf R2)).natAbs
  | none => 0

/-- Neck-origin landmark point RES_01, transcribed row by row from the
calibration table; unmatched labels fall through to the zero point. -/
noncomputable def getRES_01 (aL : Int) : SboPoint3 :=
  let offset := getOffset aL
  if isCCD_KS_STD135 aL || isCCD_KA_STD135 aL then
    if offset = 0 then pt3 (-11.07) 0 11.07
    else if offset = 1 then pt3 (-11.57) 0 11.57
    else if offset = 2 then pt3 (-12.32) 0 12.32
    else if offset = 3 then pt3 (-13.07) 0 13.07
    else if offset = 4 then pt3 (-13.8) 0 13.8
    else if offset = 5 then pt3 (-14.44) 0 14.44
    else if offset = 6 then pt3 (-15.07) 0 15.07
    else if offset = 7 then pt3 (-15.82) 0 15.82
    else if offset = 8 then pt3 (-16.57) 0 16.57
    else if offset = 9 then pt3 (-17.57) 0 17.57
    else if offset = 10 then pt3 (-18.57) 0 18.57
    else pt3 0 0 0
  else if isCCD_KHO_S_135 aL || isCCD_KHO_A_135 aL then
    if offset = 0 then pt3 (-15.1) 0 15.1
    else if offset = 1 then pt3 (-15.85) 0 15.85
    else if offset = 2 then pt3 (-16.6) 0 16.6
    else if offset = 3 then pt3 (-17.35) 0 17.35
    else if offset = 4 then pt3 (-17.98) 0 17.98
    else if offset = 5 then pt3 (-18.6) 0 18.6
    else if offset = 6 then pt3 (-19.35) 0 19.35
    else if offset = 7 then pt3 (-20.1) 0 20.1
    else if offset = 8 then pt3 (-21.1) 0 21.1
    else if offset = 9 then pt3 (-22.1) 0 22.1
    else pt3 0 0 0
  else if isCCD_KLA_125 aL then
    if offset = 0 then pt3 (-12.62) 0 8.84
    else if offset = 1 then pt3 (-13.37) 0 9.36
    else if offset = 2 then pt3 (-14.12) 0 9.89
    else if offset = 3 then pt3 (-14.86) 0 10.4
    else if offset = 4 then pt3 (-15.5) 0 10.85
    else if offset = 5 then pt3 (-16.12) 0 11.29
    else if offset = 6 then pt3 (-16.87) 0 11.81
    else if offset = 7 then pt3 (-17.62) 0 12.34
    else if offset = 8 then pt3 (-18.58) 0 13.01
    else if offset = 9 then pt3 (-19.59) 0 13.72
    else pt3 0 0 0
  else if isCCD_STD125_S aL then
    if offset = 0 then pt3 (-8.76) 0 6.13
    else if offset = 1 then pt3 (-9.26) 0 6.48
    else if offset = 2 then pt3 (-9.76) 0 6.83
    else if offset = 3 then pt3 (-10.51) 0 7.36
    else pt3 0 0 0
  else if isCCD_STD125_A aL then
    if offset = 0 then pt3 (-8.76) 0 6.13
    else if offset = 1 then pt3 (-9.26) 0 6.48
    else if offset = 2 then pt3 (-9.76) 0 6.83
    else if offset = 3 then pt3 (-10.51) 0 7.36
    else if offset = 4 then pt3 (-11.26) 0 7.88
    else if offset = 5 then pt3 (-12.01) 0 8.41
    else if offset = 6 then pt3 (-12.63) 0 8.84
    else if offset = 7 then pt3 (-13.26) 0 9.28
    else pt3 0 0 0
  else if isCCD_SN_S aL then
    if offset = 0 then pt3 (-10.22) 0 10.22
    else if offset = 1 then pt3 (-10.71) 0 10.71
    else if offset = 2 then pt3 (-11.21) 0 11.21
    else if offset = 3 then pt3 (-11.96) 0 11.96
    else pt3 0 0 0
  else if isCCD_SN_A aL then
    if offset = 0 then pt3 (-10.21) 0 10.21
    else if offset = 1 then pt3 (-10.71) 0 10.71
    else if offset = 2 then pt3 (-11.21) 0 11.21
    else if offset = 3 then pt3 (-11.96) 0 11.96
    else if offset = 4 then pt3 (-12.71) 0 12.71
    else if offset = 5 then pt3 (-13.46) 0 13.46
    else if offset = 6 then pt3 (-14.09) 0 14.09
    else if offset = 7 then pt3 (-14.71) 0 14.71
    else pt3 0 0 0
  else pt3 0 0 0

/-- Head-target landmark point TPR_01 for a stem label. -/
noncomputable def getTPR_01 (aL : Int) : SboPoint3 :=
  let offset := getOffset aL
  if isCCD_KS_STD135 aL || isCCD_KA_STD135 aL then
    if offset = 0 then pt3 (-38.29) 0 38.29
    else if offset = 1 then pt3 (-38.79) 0 38.79
    else if offset = 2 then pt3 (-39.54) 0 39.54
    else if offset = 3 then pt3 (-40.29) 0 40.29
    else if offset = 4 then pt3 (-41.03) 0 41.03
    else if offset = 5 then pt3 (-41.67) 0 41.67
    else if offset = 6 then pt3 (-42.29) 0 42.29
    else if offset = 7 then pt3 (-43.04) 0 43.04
    else if offset = 8 then pt3 (-43.79) 0 43.79
    else if offset = 9 then pt3 (-44.78) 0 44.78
    else if offset = 10 then pt3 (-45.79) 0 45.79
    else pt3 0 0 0
  else if isCCD_KHO_S_135 aL || isCCD_KHO_A_135 aL then
    if offset = 0 then pt3 (-45.65) 0 45.65
    else if offset = 1 then pt3 (-46.4) 0 46.4
    else if offset = 2 then pt3 (-47.15) 0 47.15
    else if offset = 3 then pt3 (-47.9) 0 47.9
    else if offset = 4 then pt3 (-48.53) 0 48.53
    else if offset = 5 then pt3 (-49.15) 0 49.15
    else if offset = 6 then pt3 (-49.9) 0 49.9
    else if offset = 7 then pt3 (-50.65) 0 50.65
    else if offset = 8 then pt3 (-51.83) 0 51.83
    else if offset = 9 then pt3 (-52.86) 0 52.86
    else pt3 0 0 0
  else if isCCD_KLA_125 aL then
    if offset = 0 then pt3 (-45.59) 0 31.92
    else if offset = 1 then pt3 (-46.35) 0 32.45
    else if offset = 2 then pt3 (-47.09) 0 32.98
    else if offset = 3 then pt3 (-47.83) 0 33.49
    else if offset = 4 then pt3 (-48.46) 0 33.93
    else if offset = 5 then pt3 (-49.08) 0 34.37
    else if offset = 6 then pt3 (-49.83) 0 34.89
    else if offset = 7 then pt3 (-50.58) 0 35.41
    else if offset = 8 then pt3 (-51.78) 0 36.26
    else if offset = 9 then pt3 (-52.79) 0 36.97
    else pt3 0 0 0
  else if isCCD_STD125_S aL then
    if offset = 0 then pt3 (-37.87) 0 26.52
    else if offset = 1 then pt3 (-38.37) 0 26.87
    else if offset = 2 then pt3 (-38.87) 0 27.22
    else if offset = 3 then pt3 (-39.62) 0 27.74
    else pt3 0 0 0
  else if isCCD_STD125_A aL then
    if offset = 0 then pt3 (-37.87) 0 26.52
    else if offset = 1 then pt3 (-38.37) 0 26.87
    else if offset = 2 then pt3 (-38.87) 0 27.22
    else if offset = 3 then pt3 (-39.62) 0 27.74
    else if offset = 4 then pt3 (-40.37) 0 28.27
    else if offset = 5 then pt3 (-41.12) 0 28.79
    else if offset = 6 then pt3 (-41.74) 0 29.23
    else if offset = 7 then pt3 (-42.37) 0 29.67
    else pt3 0 0 0
  else if isCCD_SN_S aL then
    if offset = 0 then pt3 (-32.49) 0 32.49
    else if offset = 1 then pt3 (-32.99) 0 32.99
    else if offset = 2 then pt3 (-33.49) 0 33.49
    else if offset = 3 then pt3 (-34.24) 0 34.24
    else pt3 0 0 0
  else if isCCD_SN_A aL then
    if offset = 0 then pt3 (-32.49) 0 32.49
    else if offset = 1 then pt3 (-32.99) 0 32.99
    else if offset = 2 then pt3 (-33.49) 0 33.49
    else if offset = 3 then pt3 (-34.24) 0 34.24
    else if offset = 4 then pt3 (-34.99) 0 34.99
    else if offset = 5 then pt3 (-35.74) 0 35.74
    else if offset = 6 then pt3 (-36.36) 0 36.36
    else if offset = 7 then pt3 (-36.99) 0 36.99
    else pt3 0 0 0
  else pt3 0 0 0

/-- SboCorail::headToStemMatrix: translation placing the head component at
the head-target point plus a head-size offset along the neck axis. -/
noncomputable def headToStemMatrix (aHeadLabel aStemLabel : Int) : SboMatrix3 :=
  let neckO := getRES_01 aStemLabel
  let headO := getTPR_01 aStemLabel
  let neckAxis := SboML.unit3 (headO - neckO)
  let l : ℝ :=
    if aHeadLabel = HEAD_M4 then -3.5
    else if aHeadLabel = HEAD_P4 then 3.5
    else if aHeadLabel = HEAD_P8 then 7.0
    else 0
  SboML.transMat3 (headO + l • neckAxis)

/-- Modelled from the spec: the product-name registry string for Corail
(hproj::JNJ::productName, declared outside src/); an opaque non-empty
constant. -/
def productName : String := "CORAIL"

/-- SboCorail::fillAndValidAssembly: reset validity, and when a side is
requested, default the cutplane label and stamp names plus validity when the
stem/head/no-neck structural checks pass. -/
def fillAndValidAssembly (aFemIC : SboFemImplantConfig) : SboFemImplantConfig :=
  let myFemIC := { aFemIC with validAssembly := false }
  if myFemIC.requestedSide ≠ SboAnatomLocation.None then
    let bs := isStem myFemIC.stemLabel
    let bh := isHead myFemIC.headLabel
    let bn := !myFemIC.neckLabel.isSome
    let myFemIC :=
      if myFemIC.cutPlaneLabel.isSome then myFemIC
      else { myFemIC with cutPlaneLabel := some CUTPLANE }
    let b := bs && bh && bn
    if b then
      { myFemIC with
          stemProductName := productName
          distalShaftProductName := ""
          headProductName := productName
          neckProductName := ""
          implantSide := SboAnatomLocation.None
          validAssembly := true }
    else myFemIC
  else myFemIC

/-- SboCorail::nextPrev: replace the stem label by its next or previous size
and change nothing else; validity is deliberately not re-checked. -/
def nextPrev (aFemIC : SboFemImplantConfig) (aNext : Bool) : SboFemImplantConfig :=
  { aFemIC with stemLabel := nextPrevStem aFemIC.stemLabel aNext }

end Corail

namespace Amistem

/-- Modelled from the spec: the fixed numeric label-range offset supplied by
the product registry for the Amistem product
(hproj::MDCA::productRangeStartsAt, declared outside src/); behaviour is
invariant under it and it is fixed to 0 here. -/
def ProductRangeStartsAt : Int := 0

def STEM_STD_0 : Int := ProductRangeStartsAt + 50

def STEM_STD_1 : Int := ProductRangeStartsAt + 51

def STEM_STD_2 : Int := ProductRangeStartsAt + 52

def STEM_STD_3 : Int := ProductRangeStartsAt + 53

def STEM_STD_4 : Int := ProductRangeStartsAt + 54

def STEM_STD_5 : Int := ProductRangeStartsAt + 55

def STEM_STD_6 : Int := ProductRangeStartsAt + 56

def STEM_STD_7 : Int := ProductRangeStartsAt + 57

def STEM_STD_8 : Int := ProductRangeStartsAt + 58

def STEM_STD_9 : Int := ProductRangeStartsAt + 59

def STEM_STD_10 : Int := ProductRangeStartsAt + 60

def STEM_LAT_0 : Int := ProductRangeStartsAt + 61

def STEM_LAT_1 : Int := ProductRangeStartsAt + 62

def STEM_LAT_2 : Int := ProductRangeStartsAt + 63

def STEM_LAT_3 : Int := ProductRangeStartsAt + 64

def STEM_LAT_4 : Int := ProductRangeStartsAt + 65

def STEM_LAT_5 : Int := ProductRangeStartsAt + 66

def STEM_LAT_6 : Int := ProductRangeStartsAt + 67

def STEM_LAT_7 : Int := ProductRangeStartsAt + 68

def STEM_LAT_8 : Int := ProductRangeStartsAt + 69

def STEM_STD_SN_0 : Int := ProductRangeStartsAt + 70

def STEM_STD_SN_1 : Int := ProductRangeStartsAt + 71

def STEM_STD_SN_2 : Int := ProductRangeStartsAt + 72

def STEM_STD_SN_3 : Int := ProductRangeStartsAt + 73

def STEM_STD_SN_4 : Int := ProductRangeStartsAt + 74

def STEM_STD_SN_5 : Int := ProductRangeStartsAt + 75

def STEM_STD_SN_6 : Int := ProductRangeStartsAt + 76

def STEM_STD_SN_7 : Int := ProductRangeStartsAt + 77

def STEM_STD_SN_8 : Int := ProductRangeStartsAt + 78

def STEM_STD_SN_9 : Int := ProductRangeStartsAt + 79

def STEM_STD_SN_10 : Int := ProductRangeStartsAt + 80

def STEM_LAT_SN_0 : Int := ProductRangeStartsAt + 81

def STEM_LAT_SN_1 : Int := ProductRangeStartsAt + 82

def STEM_LAT_SN_2 : Int := ProductRangeStartsAt + 83

def STEM_LAT_SN_3 : Int := ProductRangeStartsAt + 84

def STEM_LAT_SN_4 : Int := ProductRangeStartsAt + 85

def STEM_LAT_SN_5 : Int := ProductRangeStartsAt + 86

def STEM_LAT_SN_6 : Int := ProductRangeStartsAt + 87

def STEM_LAT_SN_7 : Int := ProductRangeStartsAt + 88

def STEM_LAT_SN_8 : Int := ProductRangeStartsAt + 89

def CUTPLANE : Int := ProductRangeStartsAt + 90

def HEAD_M4 : Int := ProductRangeStartsAt + 91

def HEAD_P0 : Int := ProductRangeStartsAt + 92

def HEAD_P4 : Int := ProductRangeStartsAt + 93

def HEAD_P8 : Int := ProductRangeStartsAt + 94

def HEAD_P12 : Int := ProductRangeStartsAt + 95

def RANGE_CCD_STD : Int := ProductRangeStartsAt + 96

def RANGE_CCD_LAT : Int := ProductRangeStartsAt + 97

def RANGE_CCD_STD_SN : Int := ProductRangeStartsAt + 98

def RANGE_CCD_LAT_SN : Int := ProductRangeStartsAt + 99

def isCCD_STD (l : Int) : Bool :=
  SboML.in_closed_range l STEM_STD_0 STEM_STD_10

def isCCD_LAT (l : Int) : Bool :=
  SboML.in_closed_range l STEM_LAT_0 STEM_LAT_8

def isCCD_STD_SN (l : Int) : Bool :=
  SboML.in_closed_range l STEM_STD_SN_0 STEM_STD_SN_10

def isCCD_LAT_SN (l : Int) : Bool :=
  SboML.in_closed_range l STEM_LAT_SN_0 STEM_LAT_SN_8

def isLAT (l : Int) : Bool := isCCD_LAT l || isCCD_LAT_SN l

def isStem (l : Int) : Bool :=
  isCCD_STD l || isCCD_LAT l || isCCD_STD_SN l || isCCD_LAT_SN l

def isHead (l : Int) : Bool :=
  SboML.in_closed_range l HEAD_M4 HEAD_P12

def isRange (l : Int) : Bool :=
  SboML.in_closed_range l RANGE_CCD_STD RANGE_CCD_LAT_SN

def nextPrevStem (aL : Int) (aNext : Bool) : Int :=
  let nL := aL + (if aNext then 1 else -1)
  if isCCD_STD_SN aL then (if isCCD_STD_SN nL then nL else aL)
  else if isCCD_LAT_SN aL then (if isCCD_LAT_SN nL then nL else aL)
  else if isCCD_LAT aL then (if isCCD_LAT nL then nL else aL)
  else (if isCCD_STD nL then nL else aL)

def getCCDRange (aL : Int) : Int :=
  if isCCD_STD aL then RANGE_CCD_STD
  else if isCCD_LAT aL then RANGE_CCD_LAT
  else if isCCD_STD_SN aL then RANGE_CCD_STD_SN
  else if isCCD_LAT_SN aL then RANGE_CCD_LAT_SN
  else 0

/-- Per-range statistics row R of getRangeStats: offset bounds r0..r1, flat
start and end index l..s, and the label of offset 0. -/
structure R where
  r0 : Int := 0
  r1 : Int := 0
  l : Int := 0
  s : Int := 0
  label0 : Int := 0

def getRangeStats (aL : Int) : R :=
  if isStem aL then
    if isCCD_STD aL then ⟨0, 10, 0, 10, STEM_STD_0⟩
    else if isCCD_LAT aL then ⟨0, 8, 11, 19, STEM_LAT_0⟩
    else if isCCD_STD_SN aL then ⟨0, 10, 20, 30, STEM_STD_SN_0⟩
    else ⟨0, 8, 31, 39, STEM_LAT_SN_0⟩
  else if aL = RANGE_CCD_STD then ⟨0, 10, 0, 10, STEM_STD_0⟩
  else if aL = RANGE_CCD_LAT then ⟨0, 8, 11, 19, STEM_LAT_0⟩
  else if aL = RANGE_CCD_STD_SN then ⟨0, 10, 20, 30, STEM_STD_SN_0⟩
  else if aL = RANGE_CCD_LAT_SN then ⟨0, 8, 31, 39, STEM_LAT_SN_0⟩
  else {}

/-- Size of a stem label within its family, transcribed from the label-by-
label chain of getStemSize. -/
def getStemSize (aL : Int) : Int :=
  if aL = STEM_STD_0 then 0
  else if aL = STEM_STD_1 then 1
  else if aL = STEM_STD_2 then 2
  else if aL = STEM_STD_3 then 3
  else if aL = STEM_STD_4 then 4
  else if aL = STEM_STD_5 then 5
  else if aL = STEM_STD_6 then 6
  else if aL = STEM_STD_7 then 7
  else if aL = STEM_STD_8 then 8
  else if aL = STEM_STD_9 then 9
  else if aL = STEM_STD_10 then 10
  else if aL = STEM_LAT_0 then 0
  else if aL = STEM_LAT_1 then 1
  else if aL = STEM_LAT_2 then 2
  else if aL = STEM_LAT_3 then 3
  else if aL = STEM_LAT_4 then 4
  else if aL = STEM_LAT_5 then 5
  else if aL = STEM_LAT_6 then 6
  else if aL = STEM_LAT_7 then 7
  else if aL = STEM_LAT_8 then 8
  else if aL = STEM_STD_SN_0 then 0
  else if aL = STEM_STD_SN_1 then 1
  else if aL = STEM_STD_SN_2 then 2
  else if aL = STEM_STD_SN_3 then 3
  else if aL = STEM_STD_SN_4 then 4
  else if aL = STEM_STD_SN_5 then 5
  else if aL = STEM_STD_SN_6 then 6
  else if aL = STEM_STD_SN_7 then 7
  else if aL = STEM_STD_SN_8 then 8
  else if aL = STEM_STD_SN_9 then 9
  else if aL = STEM_STD_SN_10 then 10
  else if aL = STEM_LAT_SN_0 then 0
  else if aL = STEM_LAT_SN_1 then 1
  else if aL = STEM_LAT_SN_2 then 2
  else if aL = STEM_LAT_SN_3 then 3
  else if aL = STEM_LAT_SN_4 then 4
  else if aL = STEM_LAT_SN_5 then 5
  else if aL = STEM_LAT_SN_6 then 6
  else if aL = STEM_LAT_SN_7 then 7
  else if aL = STEM_LAT_SN_8 then 8
  else 0

/-- Amistem getSimilarLabel.  A STD or SN-STD source of extreme size 0 or 10
whose target is not the size-aligned sibling STD family takes the early
return of the source: the source label comes back unchanged because no
similar size exists in the LAT families. -/
def getSimilarLabel (aLabel aTargetR : Int) : Int :=
  let sourceR := getCCDRange aLabel
  let sz := getStemSize aLabel
  let T := getRangeStats aTargetR
  if sourceR = RANGE_CCD_STD then
    if aTargetR = RANGE_CCD_STD_SN then T.label0 + SboML.clamp sz T.r0 T.r1
    else if sz = 0 ∨ sz = 10 then aLabel
    else if aTargetR = RANGE_CCD_LAT then T.label0 + SboML.clamp (sz - 1) T.r0 T.r1
    else if aTargetR = RANGE_CCD_LAT_SN then T.label0 + SboML.clamp (sz - 1) T.r0 T.r1
    else T.label0 + sz
  else if sourceR = RANGE_CCD_LAT then
    if aTargetR = RANGE_CCD_STD then T.label0 + SboML.clamp (sz + 1) T.r0 T.r1
    else if aTargetR = RANGE_CCD_STD_SN then T.label0 + SboML.clamp (sz + 1) T.r0 T.r1
    else T.label0 + sz
  else if sourceR = RANGE_CCD_STD_SN then
    if aTargetR = RANGE_CCD_STD then T.label0 + SboML.clamp sz T.r0 T.r1
    else if sz = 0 ∨ sz = 10 then aLabel
    else if aTargetR = RANGE_CCD_LAT then T.label0 + SboML.clamp (sz - 1) T.r0 T.r1
    else if aTargetR = RANGE_CCD_LAT_SN then T.label0 + SboML.clamp (sz - 1) T.r0 T.r1
    else T.label0 + sz
  else if sourceR = RANGE_CCD_LAT_SN then
    if aTargetR = RANGE_CCD_STD then T.label0 + SboML.clamp (sz + 1) T.r0 T.r1
    else if aTargetR = RANGE_CCD_STD_SN then T.label0 + SboML.clamp (sz + 1) T.r0 T.r1
    else T.label0 + sz
  else T.label0 + sz

/-- The directly authored size-adjustment rules of Amistem getSimilarLabel
as a partial shift table: the STD families are size-aligned with each other
(shift 0), one size separates the STD and LAT families, and no rule relates
the two LAT families directly. -/
def shiftOf (R1 R2 : Int) : Option Int :=
  if R1 = RANGE_CCD_STD ∨ R1 = RANGE_CCD_STD_SN then
    if (R1 = RANGE_CCD_STD ∧ R2 = RANGE_CCD_STD_SN) ∨
        (R1 = RANGE_CCD_STD_SN ∧ R2 = RANGE_CCD_STD) then some 0
    else if R2 = RANGE_CCD_LAT ∨ R2 = RANGE_CCD_LAT_SN then some (-1)
    else none
  else if R1 = RANGE_CCD_LAT ∨ R1 = RANGE_CCD_LAT_SN then
    if R2 = RANGE_CCD_STD ∨ R2 = RANGE_CCD_STD_SN then some 1
    else none
  else none

/-- A pair of Amistem sub-ranges with directly authored rules in both
directions. -/
def hasReverseRule (R1 R2 : Int) : Bool :=
  (shiftOf R1 R2).isSome && (shiftOf R2 R1).isSome

/-- Amistem neck-origin landmark RES_01; x is always 0, y and z transcribed
from the calibration rows. -/
noncomputable def getRES_01 (aLabel : Int) : SboPoint3 :=
  let sourceR := getCCDRange aLabel
  let sz := getStemSize aLabel
  if sourceR = RANGE_CCD_STD then
    if sz = 0 then pt3 0 14.52 14.52
    else if sz = 1 then pt3 0 14.78 14.78
    else if sz = 2 then pt3 0 15.49 15.49
    else if sz = 3 then pt3 0 16.19 16.19
    else if sz = 4 then pt3 0 16.90 16.90
    else if sz = 5 then pt3 0 17.54 17.54
    else if sz = 6 then pt3 0 18.17 18.17
    else if sz = 7 then pt3 0 18.80 18.80
    else if sz = 8 then pt3 0 19.37 19.37
    else if sz = 9 then pt3 0 20.07 20.07
    else if sz = 10 then pt3 0 20.78 20.78
    else pt3 0 0 0
  else if sourceR = RANGE_CCD_LAT then
    if sz = 0 then pt3 0 13.99 10.54
    else if sz = 1 then pt3 0 14.70 11.08
    else if sz = 2 then pt3 0 15.40 11.61
    else if sz = 3 then pt3 0 16.35 12.32
    else if sz = 4 then pt3 0 16.76 12.63
    else if sz = 5 then pt3 0 17.38 13.1
    else if sz = 6 then pt3 0 17.88 13.55
    else if sz = 7 then pt3 0 18.59 14.01
    else if sz = 8 then pt3 0 19.2 14.47
    else pt3 0 0 0
  else if sourceR = RANGE_CCD_STD_SN then
    if sz = 0 then pt3 0 14.51 14.51
    else if sz = 1 then pt3 0 14.77 14.77
    else if sz = 2 then pt3 0 15.48 15.48
    else if sz = 3 then pt3 0 16.19 16.19
    else if sz = 4 then pt3 0 16.9 16.9
    else if sz = 5 then pt3 0 17.53 17.53
    else if sz = 6 then pt3 0 18.17 18.17
    else if sz = 7 then pt3 0 18.8 18.8
    else if sz = 8 then pt3 0 19.36 19.36
    else if sz = 9 then pt3 0 20.07 20.07
    else if sz = 10 then pt3 0 20.78 20.78
    else pt3 0 0 0
  else if sourceR = RANGE_CCD_LAT_SN then
    if sz = 0 then pt3 0 13.99 10.54
    else if sz = 1 then pt3 0 14.7 11.08
    else if sz = 2 then pt3 0 15.4 11.61
    else if sz = 3 then pt3 0 16.35 12.32
    else if sz = 4 then pt3 0 16.76 12.63
    else if sz = 5 then pt3 0 17.38 13.1
    else if sz = 6 then pt3 0 17.98 13.55
    else if sz = 7 then pt3 0 18.59 14.01
    else if sz = 8 then pt3 0 19.2 14.47
    else pt3 0 0 0
  else pt3 0 0 0

end Amistem

namespace Ecofit

/-- Modelled from the spec: the fixed numeric label-range offset supplied by
the product registry for the Ecofit stemless product
(hproj::ICAST::productRangeStartsAt, declared outside src/); behaviour is
invariant under it and it is fixed to 0 here. -/
def ProductRangeStartsAt : Int := 0

def STEM_STD_133_0 : Int := ProductRangeStartsAt + 90

def STEM_STD_133_8 : Int := ProductRangeStartsAt + 98

def STEM_STD_133_9 : Int := ProductRangeStartsAt + 99

def STEM_STD_133_11 : Int := ProductRangeStartsAt + 101

def STEM_LAT_133_0 : Int := ProductRangeStartsAt + 102

def STEM_LAT_133_11 : Int := ProductRangeStartsAt + 113

def STEM_STD_138_0 : Int := ProductRangeStartsAt + 114

def STEM_STD_138_8 : Int := ProductRangeStartsAt + 122

def STEM_STD_138_9 : Int := ProductRangeStartsAt + 123

def STEM_LAT_138_0 : Int := ProductRangeStartsAt + 124

def STEM_LAT_138_9 : Int := ProductRangeStartsAt + 133

def STEM_CV_0 : Int := ProductRangeStartsAt + 134

def STEM_CV_9 : Int := ProductRangeStartsAt + 143

def CUTPLANE : Int := ProductRangeStartsAt + 144

def HEAD_M4 : Int := ProductRangeStartsAt + 145

def HEAD_P0 : Int := ProductRangeStartsAt + 146

def HEAD_P4 : Int := ProductRangeStartsAt + 147

def HEAD_P8 : Int := ProductRangeStartsAt + 148

def RANGE_CCD_STD_133 : Int := ProductRangeStartsAt + 149

def RANGE_CCD_LAT_133 : Int := ProductRangeStartsAt + 150

def RANGE_CCD_STD_138 : Int := ProductRangeStartsAt + 151

def RANGE_CCD_LAT_138 : Int := ProductRangeStartsAt + 152

def RANGE_CCD_CV : Int := ProductRangeStartsAt + 153

def isCCD_STD_133 (l : Int) : Bool :=
  SboML.in_closed_range l STEM_STD_133_0 STEM_STD_133_11

def isCCD_LAT_133 (l : Int) : Bool :=
  SboML.in_closed_range l STEM_LAT_133_0 STEM_LAT_133_11

def isCCD_STD_138 (l : Int) : Bool :=
  SboML.in_closed_range l STEM_STD_138_0 STEM_STD_138_9

def isCCD_LAT_138 (l : Int) : Bool :=
  SboML.in_closed_range l STEM_LAT_138_0 STEM_LAT_138_9

def isCCD_CV (l : Int) : Bool :=
  SboML.in_closed_range l STEM_CV_0 STEM_CV_9

def isCCD_133 (l : Int) : Bool := isCCD_STD_133 l || isCCD_LAT_133 l

def isStem (l : Int) : Bool :=
  isCCD_STD_133 l || isCCD_LAT_133 l || isCCD_STD_138 l || isCCD_LAT_138 l ||
    isCCD_CV l

def isHead (l : Int) : Bool := SboML.in_closed_range l HEAD_M4 HEAD_P8

def isSubRange (l : Int) : Bool :=
  SboML.in_closed_range l RANGE_CCD_STD_133 RANGE_CCD_CV

def isSubRange133 (l : Int) : Bool :=
  l == RANGE_CCD_STD_133 || l == RANGE_CCD_LAT_133

/-- Per-range statistics record R with offset bounds, the offset-0 label and
the owning sub-range marker. -/
structure R where
  r0 : Int := 0
  r1 : Int := 0
  label0 : Int := 0
  subRange : Int := 0

def R.idx (r : R) (aL : Int) : Int := aL - r.label0

def R.inSubRange (r : R) (aL : Int) : Bool :=
  decide (r.r0 ≤ r.idx aL) && decide (r.idx aL ≤ r.r1)

def R.next (r : R) (aL aStep : Int) : Int :=
  let l := aL + aStep
  if r.inSubRange l then l else aL

def R.size (r : R) (aL : Int) : Int :=
  if r.inSubRange aL then r.idx aL else 0

def R.clampSize (r : R) (sz : Int) : Int := SboML.clamp sz r.r0 r.r1

def getRangeStats (aL : Int) : R :=
  let myRL :=
    if isStem aL then
      if isCCD_STD_133 aL then RANGE_CCD_STD_133
      else if isCCD_LAT_133 aL then RANGE_CCD_LAT_133
      else if isCCD_STD_138 aL then RANGE_CCD_STD_138
      else if isCCD_LAT_138 aL then RANGE_CCD_LAT_138
      else RANGE_CCD_CV
    else aL
  if isSubRange myRL then
    if myRL = RANGE_CCD_STD_133 then ⟨0, 11, STEM_STD_133_0, myRL⟩
    else if myRL = RANGE_CCD_LAT_133 then ⟨0, 11, STEM_LAT_133_0, myRL⟩
    else if myRL = RANGE_CCD_STD_138 then ⟨0, 9, STEM_STD_138_0, myRL⟩
    else if myRL = RANGE_CCD_LAT_138 then ⟨0, 9, STEM_LAT_138_0, myRL⟩
    else ⟨0, 9, STEM_CV_0, myRL⟩
  else {}

def nextPrevStem (aL : Int) (aNext : Bool) : Int :=
  (getRangeStats aL).next aL (if aNext then 1 else -1)

/-- Ecofit getSimilarLabel: sizes map identically except across the 133°
versus non-133° boundary, where the authored remap pairs size 8 with 9 and
size 9 with 11, followed by a clamp into the target bounds. -/
def getSimilarLabel (aLabel aTargetR : Int) : Int :=
  let S := getRangeStats aLabel
  let sourceR := S.subRange
  let sz := S.size aLabel
  let T := getRangeStats aTargetR
  let tsz :=
    if !isSubRange133 sourceR && isSubRange133 aTargetR then
      if sz = 8 then 9 else if sz = 9 then 11 else sz
    else if isSubRange133 sourceR && !isSubRange133 aTargetR then
      if sz = 9 then 8 else if sz = 11 then 9 else sz
    else sz
  let tsz := T.clampSize tsz
  T.label0 + tsz

/-- Modelled from the spec: the product-name registry string for the Ecofit
stemless product (hproj::ICAST::productName, declared outside src/). -/
def productName : String := "ECOFIT"

/-- SboEcofitStem::fillAndValidAssembly; the okSide flag of the source is
the constant true. -/
def fillAndValidAssembly (aFemIC : SboFemImplantConfig) : SboFemImplantConfig :=
  let myFemIC := { aFemIC with validAssembly := false }
  if myFemIC.requestedSide ≠ SboAnatomLocation.None then
    let bs := isStem myFemIC.stemLabel
    let bh := isHead myFemIC.headLabel
    let bn := !myFemIC.neckLabel.isSome
    let myFemIC :=
      if myFemIC.cutPlaneLabel.isSome then myFemIC
      else { myFemIC with cutPlaneLabel := some CUTPLANE }
    let okSide := true
    let b := bs && bh && bn && okSide
    if b then
      { myFemIC with
          stemProductName := productName
          distalShaftProductName := ""
          headProductName := productName
          neckProductName := ""
          implantSide := myFemIC.requestedSide
          validAssembly := true }
    else myFemIC
  else myFemIC

/-- SboEcofitStem::nextPrev: only the stem label changes; validity is not
re-checked. -/
def nextPrev (aFemIC : SboFemImplantConfig) (aNext : Bool) : SboFemImplantConfig :=
  { aFemIC with stemLabel := nextPrevStem aFemIC.stemLabel aNext }

end Ecofit

namespace Actis

/-- Modelled from the spec: the fixed numeric label-range offset supplied by
the product registry for the Actis product
(hproj::JNJ::productRangeStartsAt, declared outside src/); behaviour is
invariant under it and it is fixed to 0 here. -/
def ProductRangeStartsAt : Int := 0

def STEM_STD_0 : Int := ProductRangeStartsAt + 90

def STEM_STD_12 : Int := ProductRangeStartsAt + 102

def STEM_HO_0 : Int := ProductRangeStartsAt + 103

def STEM_HO_12 : Int := ProductRangeStartsAt + 115

def CUTPLANE : Int := ProductRangeStartsAt + 116

def HEAD_M4 : Int := ProductRangeStartsAt + 117

def HEAD_P0 : Int := ProductRangeStartsAt + 118

def HEAD_P4 : Int := ProductRangeStartsAt + 119

def HEAD_P8 : Int := ProductRangeStartsAt + 120

def RANGE_CCD_STD : Int := ProductRangeStartsAt + 121

def RANGE_CCD_HO : Int := ProductRangeStartsAt + 122

def isCCD_STD (l : Int) : Bool :=
  SboML.in_closed_range l STEM_STD_0 STEM_STD_12

def isCCD_HO (l : Int) : Bool :=
  SboML.in_closed_range l STEM_HO_0 STEM_HO_12

def isStem (l : Int) : Bool := isCCD_STD l || isCCD_HO l

def isHead (l : Int) : Bool := SboML.in_closed_range l HEAD_M4 HEAD_P8

def isSubRange (l : Int) : Bool :=
  SboML.in_closed_range l RANGE_CCD_STD RANGE_CCD_HO

/-- Per-range statistics record R, as in the Actis scheme header. -/
structure R where
  r0 : Int := 0
  r1 : Int := 0
  label0 : Int := 0
  subRange : Int := 0

def R.idx (r : R) (aL : Int) : Int := aL - r.label0

def R.inSubRange (r : R) (aL : Int) : Bool :=
  decide (r.r0 ≤ r.idx aL) && decide (r.idx aL ≤ r.r1)

def R.next (r : R) (aL aStep : Int) : Int :=
  let l := aL + aStep
  if r.inSubRange l then l else aL

def R.size (r : R) (aL : Int) : Int :=
  if r.inSubRange aL then r.idx aL else 0

def R.clampSize (r : R) (sz : Int) : Int := SboML.clamp sz r.r0 r.r1

def getRangeStats (aL : Int) : R :=
  let myRL :=
    if isStem aL then
      if isCCD_STD aL then RANGE_CCD_STD else RANGE_CCD_HO
    else aL
  if isSubRange myRL then
    if myRL = RANGE_CCD_STD then ⟨0, 12, STEM_STD_0, myRL⟩
    else ⟨0, 12, STEM_HO_0, myRL⟩
  else {}

def nextPrevStem (aL : Int) (aNext : Bool) : Int :=
  (getRangeStats aL).next aL (if aNext then 1 else -1)

/-- Modelled from the spec: the product-name registry string for Actis
(hproj::JNJ::productName, declared outside src/). -/
def productName : String := "ACTIS"

/-- SboActis::fillAndValidAssembly. -/
def fillAndValidAssembly (aFemIC : SboFemImplantConfig) : SboFemImplantConfig :=
  let myFemIC := { aFemIC with validAssembly := false }
  if myFemIC.requestedSide ≠ SboAnatomLocation.None then
    let bs := isStem myFemIC.stemLabel
    let bh := isHead myFemIC.headLabel
    let bn := !myFemIC.neckLabel.isSome
    let myFemIC :=
      if myFemIC.cutPlaneLabel.isSome then myFemIC
      else { myFemIC with cutPlaneLabel := some CUTPLANE }
    let b := bs && bh && bn
    if b then
      { myFemIC with
          stemProductName := productName
          distalShaftProductName := ""
          headProductName := productName
          neckProductName := ""
          implantSide := myFemIC.requestedSide
          validAssembly := true }
    else myFemIC
  else myFemIC

/-- SboActis::nextPrev: only the stem label changes; validity is not
re-checked. -/
def nextPrev (aFemIC : SboFemImplantConfig) (aNext : Bool) : SboFemImplantConfig :=
  { aFemIC with stemLabel := nextPrevStem aFemIC.stemLabel aNext }

end Actis

theorem corail_isStem_bounds {l : Int} (h : Corail.isStem l = true) :
    90 ≤ l ∧ l ≤ 165 := by
  simp only [Corail.isStem, SboML.in_closed_range, Corail.STEM_KHO_A_135_0,
    Corail.STEM_SN_A_7, Corail.ProductRangeStartsAt, Bool.and_eq_true,
    decide_eq_true_eq] at h
  omega

theorem amistem_isStem_bounds {l : Int} (h : Amistem.isStem l = true) :
    50 ≤ l ∧ l ≤ 89 := by
  simp only [Amistem.isStem, Amistem.isCCD_STD, Amistem.isCCD_LAT,
    Amistem.isCCD_STD_SN, Amistem.isCCD_LAT_SN, SboML.in_closed_range,
    Amistem.STEM_STD_0, Amistem.STEM_STD_10, Amistem.STEM_LAT_0,
    Amistem.STEM_LAT_8, Amistem.STEM_STD_SN_0, Amistem.STEM_STD_SN_10,
    Amistem.STEM_LAT_SN_0, Amistem.STEM_LAT_SN_8, Amistem.ProductRangeStartsAt,
    Bool.or_eq_true, Bool.and_eq_true, decide_eq_true_eq] at h
  omega

theorem actis_isStem_bounds {l : Int} (h : Actis.isStem l = true) :
    90 ≤ l ∧ l ≤ 115 := by
  simp only [Actis.isStem, Actis.isCCD_STD, Actis.isCCD_HO,
    SboML.in_closed_range, Actis.STEM_STD_0, Actis.STEM_STD_12,
    Actis.STEM_HO_0, Actis.STEM_HO_12, Actis.ProductRangeStartsAt,
    Bool.or_eq_true, Bool.and_eq_true, decide_eq_true_eq] at h
  omega

theorem corail_similar_self_aux_a :
    ∀ l ∈ Finset.Icc (90 : ℤ) 127,
      Corail.similarLabel l (Corail.getCCDRange l) = l := by decide

theorem corail_similar_self_aux_b :
    ∀ l ∈ Finset.Icc (128 : ℤ) 165,
      Corail.similarLabel l (Corail.getCCDRange l) = l := by decide

theorem corail_similar_self_aux :
    ∀ l ∈ Finset.Icc (90 : ℤ) 165,
      Corail.similarLabel l (Corail.getCCDRange l) = l := by
  intro l hl
  rw [Finset.mem_Icc] at hl
  rcases le_or_lt l 127 with h | h
  · exact corail_similar_self_aux_a l (Finset.mem_Icc.mpr ⟨hl.1, h⟩)
  · exact corail_similar_self_aux_b l (Finset.mem_Icc.mpr ⟨by omega, hl.2⟩)

theorem amistem_similar_self_aux :
    ∀ l ∈ Finset.Icc (50 : ℤ) 89,
      Amistem.getSimilarLabel l (Amistem.getCCDRange l) = l := by decide

/-- C4: for every valid stem label l of a product line, similarLabel applied
to l and l's own sub-range returns l unchanged: self-mapping into the same
sub-range is the identity.  Shown for the Corail resolver (CCD_CORAIL's
similarLabel over getSimilarOffset) and the Amistem resolver
(getSimilarLabel). -/
theorem similarLabel_self_identity :
    (∀ l : Int, Corail.isStem l = true →
      Corail.similarLabel l (Corail.getCCDRange l) = l) ∧
    (∀ l : Int, Amistem.isStem l = true →
      Amistem.getSimilarLabel l (Amistem.getCCDRange l) = l) := by
  constructor
  · intro l h
    exact corail_similar_self_aux l
      (Finset.mem_Icc.mpr (corail_isStem_bounds h))
  · intro l h
    exact amistem_similar_self_aux l
      (Finset.mem_Icc.mpr (amistem_isStem_bounds h))

/-- Witness for C4: the default Corail stem label KA 135° 13 maps to itself
inside its own sub-range. -/
theorem similarLabel_self_identity_witness :
    Corail.isStem Corail.STEM_KA_STD135_5 = true ∧
      Corail.similarLabel Corail.STEM_KA_STD135_5
        (Corail.getCCDRange Corail.STEM_KA_STD135_5) = Corail.STEM_KA_STD135_5 :=
  ⟨by decide, similarLabel_self_identity.1 Corail.STEM_KA_STD135_5 (by decide)⟩

theorem corail_nextPrevStem_aux_a :
    ∀ l ∈ Finset.Icc (90 : ℤ) 127, ∀ b : Bool,
      ((Corail.isStem (l + (if b then 1 else -1)) &&
          (Corail.getCCDRange (l + (if b then 1 else -1)) ==
            Corail.getCCDRange l)) = true →
        Corail.nextPrevStem l b = l + (if b then 1 else -1)) ∧
      ((Corail.isStem (l + (if b then 1 else -1)) &&
          (Corail.getCCDRange (l + (if b then 1 else -1)) ==
            Corail.getCCDRange l)) = false →
        Corail.nextPrevStem l b = l) := by decide

theorem corail_nextPrevStem_aux_b :
    ∀ l ∈ Finset.Icc (128 : ℤ) 165, ∀ b : Bool,
      ((Corail.isStem (l + (if b then 1 else -1)) &&
          (Corail.getCCDRange (l + (if b then 1 else -1)) ==
            Corail.getCCDRange l)) = true →
        Corail.nextPrevStem l b = l + (if b then 1 else -1)) ∧
      ((Corail.isStem (l + (if b then 1 else -1)) &&
          (Corail.getCCDRange (l + (if b then 1 else -1)) ==
            Corail.getCCDRange l)) = false →
        Corail.nextPrevStem l b = l) := by decide

theorem corail_nextPrevStem_aux :
    ∀ l ∈ Finset.Icc (90 : ℤ) 165, ∀ b : Bool,
      ((Corail.isStem (l + (if b then 1 else -1)) &&
          (Corail.getCCDRange (l + (if b then 1 else -1)) ==
            Corail.getCCDRange l)) = true →
        Corail.nextPrevStem l b = l + (if b then 1 else -1)) ∧
      ((Corail.isStem (l + (if b then 1 else -1)) &&
          (Corail.getCCDRange (l + (if b then 1 else -1)) ==
            Corail.getCCDRange l)) = false →
        Corail.nextPrevStem l b = l) := by
  intro l hl
  rw [Finset.mem_Icc] at hl
  rcases le_or_lt l 127 with h | h
  · exact corail_nextPrevStem_aux_a l (Finset.mem_Icc.mpr ⟨hl.1, h⟩)
  · exact corail_nextPrevStem_aux_b l (Finset.mem_Icc.mpr ⟨by omega, hl.2⟩)

theorem actis_nextPrevStem_aux :
    ∀ l ∈ Finset.Icc (90 : ℤ) 115, ∀ b : Bool,
      ((Actis.isStem (l + (if b then 1 else -1)) &&
          ((Actis.getRangeStats (l + (if b then 1 else -1))).subRange ==
            (Actis.getRangeStats l).subRange)) = true →
        Actis.nextPrevStem l b = l + (if b then 1 else -1)) ∧
      ((Actis.isStem (l + (if b then 1 else -1)) &&
          ((Actis.getRangeStats (l + (if b then 1 else -1))).subRange ==
            (Actis.getRangeStats l).subRange)) = false →
        Actis.nextPrevStem l b = l) := by decide

/-- C5: nextPrevStem returns the label one offset further (forward) or back
(backward) exactly when that label is a stem of the same sub-range, and
returns the original label unchanged when the step would leave the
sub-range, so stepping never crosses a family boundary and the operation is
idempotent at range ends.  Shown for the Corail and the Actis
classifiers. -/
theorem nextPrevStem_stays_in_subrange :
    (∀ l : Int, Corail.isStem l = true → ∀ b : Bool,
      ((Corail.isStem (l + (if b then 1 else -1)) &&
          (Corail.getCCDRange (l + (if b then 1 else -1)) ==
            Corail.getCCDRange l)) = true →
        Corail.nextPrevStem l b = l + (if b then 1 else -1)) ∧
      ((Corail.isStem (l + (if b then 1 else -1)) &&
          (Corail.getCCDRange (l + (if b then 1 else -1)) ==
            Corail.getCCDRange l)) = false →
        Corail.nextPrevStem l b = l)) ∧
    (∀ l : Int, Actis.isStem l = true → ∀ b : Bool,
      ((Actis.isStem (l + (if b then 1 else -1)) &&
          ((Actis.getRangeStats (l + (if b then 1 else -1))).subRange ==
            (Actis.getRangeStats l).subRange)) = true →
        Actis.nextPrevStem l b = l + (if b then 1 else -1)) ∧
      ((Actis.isStem (l + (if b then 1 else -1)) &&
          ((Actis.getRangeStats (l + (if b then 1 else -1))).subRange ==
            (Actis.getRangeStats l).subRange)) = false →
        Actis.nextPrevStem l b = l)) := by
  constructor
  · intro l h
    exact corail_nextPrevStem_aux l (Finset.mem_Icc.mpr (corail_isStem_bounds h))
  · intro l h
    exact actis_nextPrevStem_aux l (Finset.mem_Icc.mpr (actis_isStem_bounds h))

/-- Witness for C5: calling next at the last offset of the Corail KS 135°
sub-range is idempotent, the boundary into the collared family is not
crossed. -/
theorem nextPrevStem_stays_in_subrange_witness :
    Corail.nextPrevStem Corail.STEM_KS_STD135_10 true = Corail.STEM_KS_STD135_10 :=
  ((nextPrevStem_stays_in_subrange.1 Corail.STEM_KS_STD135_10 (by decide)
    true).2) (by decide)

theorem corail_partition_aux_a :
    ∀ l ∈ Finset.Icc (80 : ℤ) 120,
      (Corail.isStem l = true ↔
        ([Corail.isCCD_KS_STD135 l, Corail.isCCD_KA_STD135 l,
          Corail.isCCD_KHO_S_135 l, Corail.isCCD_KHO_A_135 l,
          Corail.isCCD_KLA_125 l, Corail.isCCD_STD125_S l,
          Corail.isCCD_STD125_A l, Corail.isCCD_SN_S l,
          Corail.isCCD_SN_A l].count true = 1)) := by decide

theorem corail_partition_aux_b :
    ∀ l ∈ Finset.Icc (121 : ℤ) 160,
      (Corail.isStem l = true ↔
        ([Corail.isCCD_KS_STD135 l, Corail.isCCD_KA_STD135 l,
          Corail.isCCD_KHO_S_135 l, Corail.isCCD_KHO_A_135 l,
          Corail.isCCD_KLA_125 l, Corail.isCCD_STD125_S l,
          Corail.isCCD_STD125_A l, Corail.isCCD_SN_S l,
          Corail.isCCD_SN_A l].count true = 1)) := by decide

theorem corail_partition_aux_c :
    ∀ l ∈ Finset.Icc (161 : ℤ) 200,
      (Corail.isStem l = true ↔
        ([Corail.isCCD_KS_STD135 l, Corail.isCCD_KA_STD135 l,
          Corail.isCCD_KHO_S_135 l, Corail.isCCD_KHO_A_135 l,
          Corail.isCCD_KLA_125 l, Corail.isCCD_STD125_S l,
          Corail.isCCD_STD125_A l, Corail.isCCD_SN_S l,
          Corail.isCCD_SN_A l].count true = 1)) := by decide

theorem corail_partition_aux :
    ∀ l ∈ Finset.Icc (80 : ℤ) 200,
      (Corail.isStem l = true ↔
        ([Corail.isCCD_KS_STD135 l, Corail.isCCD_KA_STD135 l,
          Corail.isCCD_KHO_S_135 l, Corail.isCCD_KHO_A_135 l,
          Corail.isCCD_KLA_125 l, Corail.isCCD_STD125_S l,
          Corail.isCCD_STD125_A l, Corail.isCCD_SN_S l,
          Corail.isCCD_SN_A l].count true = 1)) := by
  intro l hl
  rw [Finset.mem_Icc] at hl
  rcases le_or_lt l 120 with h | h
  · exact corail_partition_aux_a l (Finset.mem_Icc.mpr ⟨hl.1, h⟩)
  · rcases le_or_lt l 160 with h2 | h2
    · exact corail_partition_aux_b l (Finset.mem_Icc.mpr ⟨by omega, h2⟩)
    · exact corail_partition_aux_c l (Finset.mem_Icc.mpr ⟨by omega, hl.2⟩)

theorem corail_ccdRange_marker_aux_a :
    ∀ x ∈ Finset.Icc (90 : ℤ) 127,
      SboML.in_closed_range (Corail.getCCDRange x) Corail.RANGE_CCD_KS_STD135
        Corail.RANGE_CCD_SN_A = true := by decide

theorem corail_ccdRange_marker_aux_b :
    ∀ x ∈ Finset.Icc (128 : ℤ) 165,
      SboML.in_closed_range (Corail.getCCDRange x) Corail.RANGE_CCD_KS_STD135
        Corail.RANGE_CCD_SN_A = true := by decide

/-- C8: a Corail label is a stem exactly when it satisfies exactly one of
the nine sub-range membership predicates, so the sub-ranges are pairwise
disjoint and together cover the stem interval; moreover getCCDRange is then
one of the nine declared range markers, so the sub-range of a stem label is
defined and unique. -/
theorem stem_subrange_partition :
    (∀ l : Int, Corail.isStem l = true ↔
      ([Corail.isCCD_KS_STD135 l, Corail.isCCD_KA_STD135 l,
        Corail.isCCD_KHO_S_135 l, Corail.isCCD_KHO_A_135 l,
        Corail.isCCD_KLA_125 l, Corail.isCCD_STD125_S l,
        Corail.isCCD_STD125_A l, Corail.isCCD_SN_S l,
        Corail.isCCD_SN_A l].count true = 1)) ∧
    (∀ l : Int, Corail.isStem l = true →
      SboML.in_closed_range (Corail.getCCDRange l) Corail.RANGE_CCD_KS_STD135
        Corail.RANGE_CCD_SN_A = true) := by
  constructor
  · intro l
    rcases Decidable.em (80 ≤ l ∧ l ≤ 200) with h | h
    · exact corail_partition_aux l (Finset.mem_Icc.mpr h)
    · have h0 : Corail.isStem l = false := by
        simp only [Corail.isStem, SboML.in_closed_range, Corail.STEM_KHO_A_135_0,
          Corail.STEM_SN_A_7, Corail.ProductRangeStartsAt]
        simp only [Bool.and_eq_false_iff, decide_eq_false_iff_not]
        omega
      have h1 : Corail.isCCD_KS_STD135 l = false := by
        simp only [Corail.isCCD_KS_STD135, SboML.in_closed_range,
          Corail.STEM_KS_STD135_0, Corail.STEM_KS_STD135_10,
          Corail.ProductRangeStartsAt, Bool.and_eq_false_iff,
          decide_eq_false_iff_not]
        omega
      have h2 : Corail.isCCD_KA_STD135 l = false := by
        simp only [Corail.isCCD_KA_STD135, SboML.in_closed_range,
          Corail.STEM_KA_STD135_0, Corail.STEM_KA_STD135_10,
          Corail.ProductRangeStartsAt, Bool.and_eq_false_iff,
          decide_eq_false_iff_not]
        omega
      have h3 : Corail.isCCD_KHO_S_135 l = false := by
        simp only [Corail.isCCD_KHO_S_135, SboML.in_closed_range,
          Corail.STEM_KHO_S_135_0, Corail.STEM_KHO_S_135_9,
          Corail.ProductRangeStartsAt, Bool.and_eq_false_iff,
          decide_eq_false_iff_not]
        omega
      have h4 : Corail.isCCD_KHO_A_135 l = false := by
        simp only [Corail.isCCD_KHO_A_135, SboML.in_closed_range,
          Corail.STEM_KHO_A_135_0, Corail.STEM_KHO_A_135_9,
          Corail.ProductRangeStartsAt, Bool.and_eq_false_iff,
          decide_eq_false_iff_not]
        omega
      have h5 : Corail.isCCD_KLA_125 l = false := by
        simp only [Corail.isCCD_KLA_125, SboML.in_closed_range,
          Corail.STEM_KLA_125_0, Corail.STEM_KLA_125_9,
          Corail.ProductRangeStartsAt, Bool.and_eq_false_iff,
          decide_eq_false_iff_not]
        omega
      have h6 : Corail.isCCD_STD125_S l = false := by
        simp only [Corail.isCCD_STD125_S, SboML.in_closed_range,
          Corail.STEM_STD125_S_0, Corail.STEM_STD125_S_3,
          Corail.ProductRangeStartsAt, Bool.and_eq_false_iff,
          decide_eq_false_iff_not]
        omega
      have h7 : Corail.isCCD_STD125_A l = false := by
        simp only [Corail.isCCD_STD125_A, SboML.in_closed_range,
          Corail.STEM_STD125_A_0, Corail.STEM_STD125_A_7,
          Corail.ProductRangeStartsAt, Bool.and_eq_false_iff,
          decide_eq_false_iff_not]
        omega
      have h8 : Corail.isCCD_SN_S l = false := by
        simp only [Corail.isCCD_SN_S, SboML.in_closed_range,
          Corail.STEM_SN_S_0, Corail.STEM_SN_S_3,
          Corail.ProductRangeStartsAt, Bool.and_eq_false_iff,
          decide_eq_false_iff_not]
        omega
      have h9 : Corail.isCCD_SN_A l = false := by
        simp only [Corail.isCCD_SN_A, SboML.in_closed_range,
          Corail.STEM_SN_A_0, Corail.STEM_SN_A_7,
          Corail.ProductRangeStartsAt, Bool.and_eq_false_iff,
          decide_eq_false_iff_not]
        omega
      rw [h0, h1, h2, h3, h4, h5, h6, h7, h8, h9]
      simp
  · intro l h
    have hb := corail_isStem_bounds h
    rcases le_or_lt l 127 with hc | hc
    · exact corail_ccdRange_marker_aux_a l (Finset.mem_Icc.mpr ⟨hb.1, hc⟩)
    · exact corail_ccdRange_marker_aux_b l (Finset.mem_Icc.mpr ⟨by omega, hb.2⟩)

/-- Witness for C8: the first collared 125° stem label lies in exactly one
sub-range and its range marker is one of the declared markers. -/
theorem stem_subrange_partition_witness :
    SboML.in_closed_range (Corail.getCCDRange Corail.STEM_STD125_A_0)
      Corail.RANGE_CCD_KS_STD135 Corail.RANGE_CCD_SN_A = true :=
  stem_subrange_partition.2 Corail.STEM_STD125_A_0 (by decide)

theorem amistem_no_correspondent_aux :
    ∀ l ∈ Finset.Icc (50 : ℤ) 89,
      (Amistem.getCCDRange l = Amistem.RANGE_CCD_STD ∨
        Amistem.getCCDRange l = Amistem.RANGE_CCD_STD_SN) →
      (Amistem.getStemSize l = 0 ∨ Amistem.getStemSize l = 10) →
      Amistem.getSimilarLabel l Amistem.RANGE_CCD_LAT = l ∧
        Amistem.getSimilarLabel l Amistem.RANGE_CCD_LAT_SN = l := by decide

/-- C1: when a stem label of a size-aligned STD family has an extreme size
(0 or 10) that has no defined correspondent in a lateralized target family,
the Amistem resolver returns the source label unchanged instead of a
clamped label of the target range; in particular a STD 135° label at offset
0 resolved into the LAT sub-range comes back unchanged. -/
theorem similarLabel_no_correspondent_returns_source :
    ∀ l : Int, Amistem.isStem l = true →
      (Amistem.getCCDRange l = Amistem.RANGE_CCD_STD ∨
        Amistem.getCCDRange l = Amistem.RANGE_CCD_STD_SN) →
      (Amistem.getStemSize l = 0 ∨ Amistem.getStemSize l = 10) →
      ∀ R : Int, (R = Amistem.RANGE_CCD_LAT ∨ R = Amistem.RANGE_CCD_LAT_SN) →
      Amistem.getSimilarLabel l R = l := by
  intro l h hr hsz R hR
  have key := amistem_no_correspondent_aux l
    (Finset.mem_Icc.mpr (amistem_isStem_bounds h)) hr hsz
  rcases hR with rfl | rfl
  · exact key.1
  · exact key.2

/-- Witness for C1: the smallest STD 135° Amistem stem resolved into the LAT
sub-range returns unchanged. -/
theorem similarLabel_no_correspondent_returns_source_witness :
    Amistem.getSimilarLabel Amistem.STEM_STD_0 Amistem.RANGE_CCD_LAT =
      Amistem.STEM_STD_0 :=
  similarLabel_no_correspondent_returns_source Amistem.STEM_STD_0 (by decide)
    (Or.inl (by decide)) (Or.inl (by decide)) Amistem.RANGE_CCD_LAT (Or.inl rfl)

theorem corail_shiftOf_models_aux_171 :
    ∀ o ∈ Finset.Icc (0 : ℤ) 10, ∀ R2 ∈ Finset.Icc (171 : ℤ) 179,
      ((match Corail.shiftOf 171 R2 with
        | some s =>
          Corail.getSimilarOffset o 171 R2 ==
            SboML.clamp (o + s) 0 (Corail.maxOffsetOf R2)
        | none => Corail.getSimilarOffset o 171 R2 == o) = true) := by decide

theorem corail_shiftOf_models_aux_172 :
    ∀ o ∈ Finset.Icc (0 : ℤ) 10, ∀ R2 ∈ Finset.Icc (171 : ℤ) 179,
      ((match Corail.shiftOf 172 R2 with
        | some s =>
          Corail.getSimilarOffset o 172 R2 ==
            SboML.clamp (o + s) 0 (Corail.maxOffsetOf R2)
        | none => Corail.getSimilarOffset o 172 R2 == o) = true) := by decide

theorem corail_shiftOf_models_aux_173 :
    ∀ o ∈ Finset.Icc (0 : ℤ) 10, ∀ R2 ∈ Finset.Icc (171 : ℤ) 179,
      ((match Corail.shiftOf 173 R2 with
        | some s =>
          Corail.getSimilarOffset o 173 R2 ==
            SboML.clamp (o + s) 0 (Corail.maxOffsetOf R2)
        | none => Corail.getSimilarOffset o 173 R2 == o) = true) := by decide

theorem corail_shiftOf_models_aux_174 :
    ∀ o ∈ Finset.Icc (0 : ℤ) 10, ∀ R2 ∈ Finset.Icc (171 : ℤ) 179,
      ((match Corail.shiftOf 174 R2 with
        | some s =>
          Corail.getSimilarOffset o 174 R2 ==
            SboML.clamp (o + s) 0 (Corail.maxOffsetOf R2)
        | none => Corail.getSimilarOffset o 174 R2 == o) = true) := by decide

theorem corail_shiftOf_models_aux_175 :
    ∀ o ∈ Finset.Icc (0 : ℤ) 10, ∀ R2 ∈ Finset.Icc (171 : ℤ) 179,
      ((match Corail.shiftOf 175 R2 with
        | some s =>
          Corail.getSimilarOffset o 175 R2 ==
            SboML.clamp (o + s) 0 (Corail.maxOffsetOf R2)
        | none => Corail.getSimilarOffset o 175 R2 == o) = true) := by decide

theorem corail_shiftOf_models_aux_176 :
    ∀ o ∈ Finset.Icc (0 : ℤ) 10, ∀ R2 ∈ Finset.Icc (171 : ℤ) 179,
      ((match Corail.shiftOf 176 R2 with
        | some s =>
          Corail.getSimilarOffset o 176 R2 ==
            SboML.clamp (o + s) 0 (Corail.maxOffsetOf R2)
        | none => Corail.getSimilarOffset o 176 R2 == o) = true) := by decide

theorem corail_shiftOf_models_aux_177 :
    ∀ o ∈ Finset.Icc (0 : ℤ) 10, ∀ R2 ∈ Finset.Icc (171 : ℤ) 179,
      ((match Corail.shiftOf 177 R2 with
        | some s =>
          Corail.getSimilarOffset o 177 R2 ==
            SboML.clamp (o + s) 0 (Corail.maxOffsetOf R2)
        | none => Corail.getSimilarOffset o 177 R2 == o) = true) := by decide

theorem corail_shiftOf_models_aux_178 :
    ∀ o ∈ Finset.Icc (0 : ℤ) 10, ∀ R2 ∈ Finset.Icc (171 : ℤ) 179,
      ((match Corail.shiftOf 178 R2 with
        | some s =>
          Corail.getSimilarOffset o 178 R2 ==
            SboML.clamp (o + s) 0 (Corail.maxOffsetOf R2)
        | none => Corail.getSimilarOffset o 178 R2 == o) = true) := by decide

theorem corail_shiftOf_models_aux_179 :
    ∀ o ∈ Finset.Icc (0 : ℤ) 10, ∀ R2 ∈ Finset.Icc (171 : ℤ) 179,
      ((match Corail.shiftOf 179 R2 with
        | some s =>
          Corail.getSimilarOffset o 179 R2 ==
            SboML.clamp (o + s) 0 (Corail.maxOffsetOf R2)
        | none => Corail.getSimilarOffset o 179 R2 == o) = true) := by decide

theorem corail_shiftOf_models_getSimilarOffset :
    ∀ o ∈ Finset.Icc (0 : ℤ) 10, ∀ R1 ∈ Finset.Icc (171 : ℤ) 179,
      ∀ R2 ∈ Finset.Icc (171 : ℤ) 179,
      ((match Corail.shiftOf R1 R2 with
        | some s =>
          Corail.getSimilarOffset o R1 R2 ==
            SboML.clamp (o + s) 0 (Corail.maxOffsetOf R2)
        | none => Corail.getSimilarOffset o R1 R2 == o) = true) := by
  intro o ho R1 hR1 R2 hR2
  rw [Finset.mem_Icc] at hR1
  have h9 : R1 = 171 ∨ R1 = 172 ∨ R1 = 173 ∨ R1 = 174 ∨ R1 = 175 ∨
      R1 = 176 ∨ R1 = 177 ∨ R1 = 178 ∨ R1 = 179 := by omega
  rcases h9 with rfl | rfl | rfl | rfl | rfl | rfl | rfl | rfl | rfl
  · exact corail_shiftOf_models_aux_171 o ho R2 hR2
  · exact corail_shiftOf_models_aux_172 o ho R2 hR2
  · exact corail_shiftOf_models_aux_173 o ho R2 hR2
  · exact corail_shiftOf_models_aux_174 o ho R2 hR2
  · exact corail_shiftOf_models_aux_175 o ho R2 hR2
  · exact corail_shiftOf_models_aux_176 o ho R2 hR2
  · exact corail_shiftOf_models_aux_177 o ho R2 hR2
  · exact corail_shiftOf_models_aux_178 o ho R2 hR2
  · exact corail_shiftOf_models_aux_179 o ho R2 hR2

theorem corail_roundtrip_aux_171_a :
    ∀ l ∈ Finset.Icc (90 : ℤ) 127,
      Corail.hasReverseRule (Corail.getCCDRange l) 171 = true →
      (Corail.getOffset
          (Corail.similarLabel (Corail.similarLabel l 171) (Corail.getCCDRange l)) -
        Corail.getOffset l).natAbs ≤ (Corail.lossOf l 171).toNat := by decide

theorem corail_roundtrip_aux_171_b :
    ∀ l ∈ Finset.Icc (128 : ℤ) 165,
      Corail.hasReverseRule (Corail.getCCDRange l) 171 = true →
      (Corail.getOffset
          (Corail.similarLabel (Corail.similarLabel l 171) (Corail.getCCDRange l)) -
        Corail.getOffset l).natAbs ≤ (Corail.lossOf l 171).toNat := by decide

theorem corail_roundtrip_aux_172_a :
    ∀ l ∈ Finset.Icc (90 : ℤ) 127,
      Corail.hasReverseRule (Corail.getCCDRange l) 172 = true →
      (Corail.getOffset
          (Corail.similarLabel (Corail.similarLabel l 172) (Corail.getCCDRange l)) -
        Corail.getOffset l).natAbs ≤ (Corail.lossOf l 172).toNat := by decide

theorem corail_roundtrip_aux_172_b :
    ∀ l ∈ Finset.Icc (128 : ℤ) 165,
      Corail.hasReverseRule (Corail.getCCDRange l) 172 = true →
      (Corail.getOffset
          (Corail.similarLabel (Corail.similarLabel l 172) (Corail.getCCDRange l)) -
        Corail.getOffset l).natAbs ≤ (Corail.lossOf l 172).toNat := by decide

theorem corail_roundtrip_aux_173_a :
    ∀ l ∈ Finset.Icc (90 : ℤ) 127,
      Corail.hasReverseRule (Corail.getCCDRange l) 173 = true →
      (Corail.getOffset
          (Corail.similarLabel (Corail.similarLabel l 173) (Corail.getCCDRange l)) -
        Corail.getOffset l).natAbs ≤ (Corail.lossOf l 173).toNat := by decide

theorem corail_roundtrip_aux_173_b :
    ∀ l ∈ Finset.Icc (128 : ℤ) 165,
      Corail.hasReverseRule (Corail.getCCDRange l) 173 = true →
      (Corail.getOffset
          (Corail.similarLabel (Corail.similarLabel l 173) (Corail.getCCDRange l)) -
        Corail.getOffset l).natAbs ≤ (Corail.lossOf l 173).toNat := by decide

theorem corail_roundtrip_aux_174_a :
    ∀ l ∈ Finset.Icc (90 : ℤ) 127,
      Corail.hasReverseRule (Corail.getCCDRange l) 174 = true →
      (Corail.getOffset
          (Corail.similarLabel (Corail.similarLabel l 174) (Corail.getCCDRange l)) -
        Corail.getOffset l).natAbs ≤ (Corail.lossOf l 174).toNat := by decide

theorem corail_roundtrip_aux_174_b :
    ∀ l ∈ Finset.Icc (128 : ℤ) 165,
      Corail.hasReverseRule (Corail.getCCDRange l) 174 = true →
      (Corail.getOffset
          (Corail.similarLabel (Corail.similarLabel l 174) (Corail.getCCDRange l)) -
        Corail.getOffset l).natAbs ≤ (Corail.lossOf l 174).toNat := by decide

theorem corail_roundtrip_aux_175_a :
    ∀ l ∈ Finset.Icc (90 : ℤ) 127,
      Corail.hasReverseRule (Corail.getCCDRange l) 175 = true →
      (Corail.getOffset
          (Corail.similarLabel (Corail.similarLabel l 175) (Corail.getCCDRange l)) -
        Corail.getOffset l).natAbs ≤ (Corail.lossOf l 175).toNat := by decide

theorem corail_roundtrip_aux_175_b :
    ∀ l ∈ Finset.Icc (128 : ℤ) 165,
      Corail.hasReverseRule (Corail.getCCDRange l) 175 = true →
      (Corail.getOffset
          (Corail.similarLabel (Corail.similarLabel l 175) (Corail.getCCDRange l)) -
        Corail.getOffset l).natAbs ≤ (Corail.lossOf l 175).toNat := by decide

theorem corail_roundtrip_aux_176_a :
    ∀ l ∈ Finset.Icc (90 : ℤ) 127,
      Corail.hasReverseRule (Corail.getCCDRange l) 176 = true →
      (Corail.getOffset
          (Corail.similarLabel (Corail.similarLabel l 176) (Corail.getCCDRange l)) -
        Corail.getOffset l).natAbs ≤ (Corail.lossOf l 176).toNat := by decide

theorem corail_roundtrip_aux_176_b :
    ∀ l ∈ Finset.Icc (128 : ℤ) 165,
      Corail.hasReverseRule (Corail.getCCDRange l) 176 = true →
      (Corail.getOffset
          (Corail.similarLabel (Corail.similarLabel l 176) (Corail.getCCDRange l)) -
        Corail.getOffset l).natAbs ≤ (Corail.lossOf l 176).toNat := by decide

theorem corail_roundtrip_aux_177_a :
    ∀ l ∈ Finset.Icc (90 : ℤ) 127,
      Corail.hasReverseRule (Corail.getCCDRange l) 177 = true →
      (Corail.getOffset
          (Corail.similarLabel (Corail.similarLabel l 177) (Corail.getCCDRange l)) -
        Corail.getOffset l).natAbs ≤ (Corail.lossOf l 177).toNat := by decide

theorem corail_roundtrip_aux_177_b :
    ∀ l ∈ Finset.Icc (128 : ℤ) 165,
      Corail.hasReverseRule (Corail.getCCDRange l) 177 = true →
      (Corail.getOffset
          (Corail.similarLabel (Corail.similarLabel l 177) (Corail.getCCDRange l)) -
        Corail.getOffset l).natAbs ≤ (Corail.lossOf l 177).toNat := by decide

theorem corail_roundtrip_aux_178_a :
    ∀ l ∈ Finset.Icc (90 : ℤ) 127,
      Corail.hasReverseRule (Corail.getCCDRange l) 178 = true →
      (Corail.getOffset
          (Corail.similarLabel (Corail.similarLabel l 178) (Corail.getCCDRange l)) -
        Corail.getOffset l).natAbs ≤ (Corail.lossOf l 178).toNat := by decide

theorem corail_roundtrip_aux_178_b :
    ∀ l ∈ Finset.Icc (128 : ℤ) 165,
      Corail.hasReverseRule (Corail.getCCDRange l) 178 = true →
      (Corail.getOffset
          (Corail.similarLabel (Corail.similarLabel l 178) (Corail.getCCDRange l)) -
        Corail.getOffset l).natAbs ≤ (Corail.lossOf l 178).toNat := by decide

theorem corail_roundtrip_aux_179_a :
    ∀ l ∈ Finset.Icc (90 : ℤ) 127,
      Corail.hasReverseRule (Corail.getCCDRange l) 179 = true →
      (Corail.getOffset
          (Corail.similarLabel (Corail.similarLabel l 179) (Corail.getCCDRange l)) -
        Corail.getOffset l).natAbs ≤ (Corail.lossOf l 179).toNat := by decide

theorem corail_roundtrip_aux_179_b :
    ∀ l ∈ Finset.Icc (128 : ℤ) 165,
      Corail.hasReverseRule (Corail.getCCDRange l) 179 = true →
      (Corail.getOffset
          (Corail.similarLabel (Corail.similarLabel l 179) (Corail.getCCDRange l)) -
        Corail.getOffset l).natAbs ≤ (Corail.lossOf l 179).toNat := by decide

theorem corail_roundtrip_aux :
    ∀ l ∈ Finset.Icc (90 : ℤ) 165, ∀ R2 ∈ Finset.Icc (171 : ℤ) 179,
      Corail.hasReverseRule (Corail.getCCDRange l) R2 = true →
      (Corail.getOffset
          (Corail.similarLabel (Corail.similarLabel l R2) (Corail.getCCDRange l)) -
        Corail.getOffset l).natAbs ≤ (Corail.lossOf l R2).toNat := by
  intro l hl R2 hR2 hrev
  rw [Finset.mem_Icc] at hl hR2
  have h9 : R2 = 171 ∨ R2 = 172 ∨ R2 = 173 ∨ R2 = 174 ∨ R2 = 175 ∨
      R2 = 176 ∨ R2 = 177 ∨ R2 = 178 ∨ R2 = 179 := by omega
  rcases h9 with rfl | rfl | rfl | rfl | rfl | rfl | rfl | rfl | rfl
  · rcases le_or_lt l 127 with hc | hc
    · exact corail_roundtrip_aux_171_a l (Finset.mem_Icc.mpr ⟨hl.1, hc⟩) hrev
    · exact corail_roundtrip_aux_171_b l (Finset.mem_Icc.mpr ⟨by omega, hl.2⟩) hrev
  · rcases le_or_lt l 127 with hc | hc
    · exact corail_roundtrip_aux_172_a l (Finset.mem_Icc.mpr ⟨hl.1, hc⟩) hrev
    · exact corail_roundtrip_aux_172_b l (Finset.mem_Icc.mpr ⟨by omega, hl.2⟩) hrev
  · rcases le_or_lt l 127 with hc | hc
    · exact corail_roundtrip_aux_173_a l (Finset.mem_Icc.mpr ⟨hl.1, hc⟩) hrev
    · exact corail_roundtrip_aux_173_b l (Finset.mem_Icc.mpr ⟨by omega, hl.2⟩) hrev
  · rcases le_or_lt l 127 with hc | hc
    · exact corail_roundtrip_aux_174_a l (Finset.mem_Icc.mpr ⟨hl.1, hc⟩) hrev
    · exact corail_roundtrip_aux_174_b l (Finset.mem_Icc.mpr ⟨by omega, hl.2⟩) hrev
  · rcases le_or_lt l 127 with hc | hc
    · exact corail_roundtrip_aux_175_a l (Finset.mem_Icc.mpr ⟨hl.1, hc⟩) hrev
    · exact corail_roundtrip_aux_175_b l (Finset.mem_Icc.mpr ⟨by omega, hl.2⟩) hrev
  · rcases le_or_lt l 127 with hc | hc
    · exact corail_roundtrip_aux_176_a l (Finset.mem_Icc.mpr ⟨hl.1, hc⟩) hrev
    · exact corail_roundtrip_aux_176_b l (Finset.mem_Icc.mpr ⟨by omega, hl.2⟩) hrev
  · rcases le_or_lt l 127 with hc | hc
    · exact corail_roundtrip_aux_177_a l (Finset.mem_Icc.mpr ⟨hl.1, hc⟩) hrev
    · exact corail_roundtrip_aux_177_b l (Finset.mem_Icc.mpr ⟨by omega, hl.2⟩) hrev
  · rcases le_or_lt l 127 with hc | hc
    · exact corail_roundtrip_aux_178_a l (Finset.mem_Icc.mpr ⟨hl.1, hc⟩) hrev
    · exact corail_roundtrip_aux_178_b l (Finset.mem_Icc.mpr ⟨by omega, hl.2⟩) hrev
  · rcases le_or_lt l 127 with hc | hc
    · exact corail_roundtrip_aux_179_a l (Finset.mem_Icc.mpr ⟨hl.1, hc⟩) hrev
    · exact corail_roundtrip_aux_179_b l (Finset.mem_Icc.mpr ⟨by omega, hl.2⟩) hrev

theorem amistem_roundtrip_aux_96 :
    ∀ l ∈ Finset.Icc (50 : ℤ) 89,
      Amistem.hasReverseRule (Amistem.getCCDRange l) 96 = true →
      Amistem.getSimilarLabel (Amistem.getSimilarLabel l 96)
        (Amistem.getCCDRange l) = l := by decide

theorem amistem_roundtrip_aux_97 :
    ∀ l ∈ Finset.Icc (50 : ℤ) 89,
      Amistem.hasReverseRule (Amistem.getCCDRange l) 97 = true →
      Amistem.getSimilarLabel (Amistem.getSimilarLabel l 97)
        (Amistem.getCCDRange l) = l := by decide

theorem amistem_roundtrip_aux_98 :
    ∀ l ∈ Finset.Icc (50 : ℤ) 89,
      Amistem.hasReverseRule (Amistem.getCCDRange l) 98 = true →
      Amistem.getSimilarLabel (Amistem.getSimilarLabel l 98)
        (Amistem.getCCDRange l) = l := by decide

theorem amistem_roundtrip_aux_99 :
    ∀ l ∈ Finset.Icc (50 : ℤ) 89,
      Amistem.hasReverseRule (Amistem.getCCDRange l) 99 = true →
      Amistem.getSimilarLabel (Amistem.getSimilarLabel l 99)
        (Amistem.getCCDRange l) = l := by decide

theorem amistem_roundtrip_aux :
    ∀ l ∈ Finset.Icc (50 : ℤ) 89, ∀ R2 ∈ Finset.Icc (96 : ℤ) 99,
      Amistem.hasReverseRule (Amistem.getCCDRange l) R2 = true →
      Amistem.getSimilarLabel (Amistem.getSimilarLabel l R2)
        (Amistem.getCCDRange l) = l := by
  intro l hl R2 hR2 hrev
  rw [Finset.mem_Icc] at hR2
  have h4 : R2 = 96 ∨ R2 = 97 ∨ R2 = 98 ∨ R2 = 99 := by omega
  rcases h4 with rfl | rfl | rfl | rfl
  · exact amistem_roundtrip_aux_96 l hl hrev
  · exact amistem_roundtrip_aux_97 l hl hrev
  · exact amistem_roundtrip_aux_98 l hl hrev
  · exact amistem_roundtrip_aux_99 l hl hrev

/-- Counterexample for C3: in the Ecofit product the 133° and non-133°
families carry a directly authored remap in both directions (sizes 9↔8 and
11↔9), yet the round trip from the 133° STD stem of size 8 through the 138°
STD sub-range and back lands one size away from the original (size 9)
although the forward remapped size 8 is not clamped at all, so the distance
1 exceeds zero plus the loss forced by clamping (zero). -/
theorem similar_roundtrip_counterexample_ecofit :
    Ecofit.isSubRange133 Ecofit.RANGE_CCD_STD_133 = true ∧
    Ecofit.isSubRange133 Ecofit.RANGE_CCD_STD_138 = false ∧
    Ecofit.getSimilarLabel Ecofit.STEM_STD_133_8 Ecofit.RANGE_CCD_STD_138 =
      Ecofit.STEM_STD_138_8 ∧
    (Ecofit.getRangeStats Ecofit.RANGE_CCD_STD_138).clampSize 8 = 8 ∧
    Ecofit.getSimilarLabel Ecofit.STEM_STD_138_8 Ecofit.RANGE_CCD_STD_133 =
      Ecofit.STEM_STD_133_9 ∧
    ((Ecofit.getRangeStats
          (Ecofit.getSimilarLabel
            (Ecofit.getSimilarLabel Ecofit.STEM_STD_133_8 Ecofit.RANGE_CCD_STD_138)
            Ecofit.RANGE_CCD_STD_133)).size
        (Ecofit.getSimilarLabel
          (Ecofit.getSimilarLabel Ecofit.STEM_STD_133_8 Ecofit.RANGE_CCD_STD_138)
          Ecofit.RANGE_CCD_STD_133) -
      (Ecofit.getRangeStats Ecofit.STEM_STD_133_8).size
        Ecofit.STEM_STD_133_8).natAbs = 1 := by decide

/-- C3 (amended): for the product lines whose directly authored reverse
rules are constant shifts with clamping, the round trip through a pair of
reverse-authored sub-ranges moves the offset by at most the loss forced by
clamping the shifted offset into the target bounds; for Corail this is the
clamping-loss bound, for Amistem the round trip is exactly the identity.
The Ecofit table-driven 133°/non-133° remap is excluded: there a forward
size left unmapped by the table (133° size 8) comes back one offset away
without any clamping. -/
theorem similar_roundtrip_within_clamp_loss :
    (∀ l : Int, Corail.isStem l = true → ∀ R2 : Int,
      SboML.in_closed_range R2 Corail.RANGE_CCD_KS_STD135
        Corail.RANGE_CCD_SN_A = true →
      Corail.hasReverseRule (Corail.getCCDRange l) R2 = true →
      (Corail.getOffset
          (Corail.similarLabel (Corail.similarLabel l R2) (Corail.getCCDRange l)) -
        Corail.getOffset l).natAbs ≤ (Corail.lossOf l R2).toNat) ∧
    (∀ l : Int, Amistem.isStem l = true → ∀ R2 : Int,
      Amistem.isRange R2 = true →
      Amistem.hasReverseRule (Amistem.getCCDRange l) R2 = true →
      Amistem.getSimilarLabel (Amistem.getSimilarLabel l R2)
        (Amistem.getCCDRange l) = l) := by
  constructor
  · intro l h R2 hR2 hrev
    have hb2 : 171 ≤ R2 ∧ R2 ≤ 179 := by
      simp only [SboML.in_closed_range, Corail.RANGE_CCD_KS_STD135,
        Corail.RANGE_CCD_SN_A, Corail.ProductRangeStartsAt, Bool.and_eq_true,
        decide_eq_true_eq] at hR2
      omega
    exact corail_roundtrip_aux l (Finset.mem_Icc.mpr (corail_isStem_bounds h))
      R2 (Finset.mem_Icc.mpr hb2) hrev
  · intro l h R2 hR2 hrev
    have hb2 : 96 ≤ R2 ∧ R2 ≤ 99 := by
      simp only [Amistem.isRange, SboML.in_closed_range, Amistem.RANGE_CCD_STD,
        Amistem.RANGE_CCD_LAT_SN, Amistem.ProductRangeStartsAt, Bool.and_eq_true,
        decide_eq_true_eq] at hR2
      omega
    exact amistem_roundtrip_aux l (Finset.mem_Icc.mpr (amistem_isStem_bounds h))
      R2 (Finset.mem_Icc.mpr hb2) hrev

/-- Witness for C3 (amended): the smallest KS 135° Corail stem maps into the
KHO 135° sub-range and back, ending one offset away, exactly the loss forced
by clamping the shifted offset. -/
theorem similar_roundtrip_within_clamp_loss_witness :
    (Corail.getOffset
        (Corail.similarLabel
          (Corail.similarLabel Corail.STEM_KS_STD135_0 Corail.RANGE_CCD_KHO_S_135)
          (Corail.getCCDRange Corail.STEM_KS_STD135_0)) -
      Corail.getOffset Corail.STEM_KS_STD135_0).natAbs ≤
      (Corail.lossOf Corail.STEM_KS_STD135_0 Corail.RANGE_CCD_KHO_S_135).toNat :=
  similar_roundtrip_within_clamp_loss.1 Corail.STEM_KS_STD135_0 (by decide)
    Corail.RANGE_CCD_KHO_S_135 (by decide) (by decide)

/-- C9: nextPrev returns a configuration identical to the input in every
field except the stem label, which becomes nextPrevStem of the old stem
label; in particular the validAssembly flag is carried over unchanged and is
not re-computed.  Shown for the Corail and the Ecofit schemes. -/
theorem nextPrev_changes_only_stemLabel :
    (∀ (c : SboFemImplantConfig) (b : Bool),
      (Corail.nextPrev c b).stemLabel = Corail.nextPrevStem c.stemLabel b ∧
      (Corail.nextPrev c b).requestedSide = c.requestedSide ∧
      (Corail.nextPrev c b).headLabel = c.headLabel ∧
      (Corail.nextPrev c b).neckLabel = c.neckLabel ∧
      (Corail.nextPrev c b).cutPlaneLabel = c.cutPlaneLabel ∧
      (Corail.nextPrev c b).stemProductName = c.stemProductName ∧
      (Corail.nextPrev c b).distalShaftProductName = c.distalShaftProductName ∧
      (Corail.nextPrev c b).headProductName = c.headProductName ∧
      (Corail.nextPrev c b).neckProductName = c.neckProductName ∧
      (Corail.nextPrev c b).implantSide = c.implantSide ∧
      (Corail.nextPrev c b).validAssembly = c.validAssembly) ∧
    (∀ (c : SboFemImplantConfig) (b : Bool),
      (Ecofit.nextPrev c b).stemLabel = Ecofit.nextPrevStem c.stemLabel b ∧
      (Ecofit.nextPrev c b).requestedSide = c.requestedSide ∧
      (Ecofit.nextPrev c b).headLabel = c.headLabel ∧
      (Ecofit.nextPrev c b).neckLabel = c.neckLabel ∧
      (Ecofit.nextPrev c b).cutPlaneLabel = c.cutPlaneLabel ∧
      (Ecofit.nextPrev c b).stemProductName = c.stemProductName ∧
      (Ecofit.nextPrev c b).distalShaftProductName = c.distalShaftProductName ∧
      (Ecofit.nextPrev c b).headProductName = c.headProductName ∧
      (Ecofit.nextPrev c b).neckProductName = c.neckProductName ∧
      (Ecofit.nextPrev c b).implantSide = c.implantSide ∧
      (Ecofit.nextPrev c b).validAssembly = c.validAssembly) :=
  ⟨fun c b => ⟨rfl, rfl, rfl, rfl, rfl, rfl, rfl, rfl, rfl, rfl, rfl⟩,
   fun c b => ⟨rfl, rfl, rfl, rfl, rfl, rfl, rfl, rfl, rfl, rfl, rfl⟩⟩

/-- C2: fillAndValidAssembly returns a configuration whose validAssembly
flag is true exactly when a side different from none is requested (the
side requirement of these side-requiring products), the stem label
classifies as a stem, the head label classifies as a head, and no neck
label is set; and on a configuration with a requested side whose stem label
lies outside every declared sub-range the flag is false and the stem
product name is left exactly as it was.  Shown for the Corail and the
Ecofit schemes. -/
theorem fillAndValidAssembly_validity_iff :
    (∀ c : SboFemImplantConfig,
      ((Corail.fillAndValidAssembly c).validAssembly = true ↔
        (c.requestedSide ≠ SboAnatomLocation.None ∧
          Corail.isStem c.stemLabel = true ∧ Corail.isHead c.headLabel = true ∧
          c.neckLabel = none))) ∧
    (∀ c : SboFemImplantConfig,
      ((Ecofit.fillAndValidAssembly c).validAssembly = true ↔
        (c.requestedSide ≠ SboAnatomLocation.None ∧
          Ecofit.isStem c.stemLabel = true ∧ Ecofit.isHead c.headLabel = true ∧
          c.neckLabel = none))) ∧
    (∀ c : SboFemImplantConfig, c.requestedSide ≠ SboAnatomLocation.None →
      Corail.isStem c.stemLabel = false →
      (Corail.fillAndValidAssembly c).validAssembly = false ∧
        (Corail.fillAndValidAssembly c).stemProductName = c.stemProductName) := by
  refine ⟨fun c => ?_, fun c => ?_, fun c hs hstem => ?_⟩
  · by_cases hs : c.requestedSide = SboAnatomLocation.None
    · simp [Corail.fillAndValidAssembly, hs]
    · simp [Corail.fillAndValidAssembly, hs]
      split_ifs with h1 h2 h3 <;> simp_all
  · by_cases hs : c.requestedSide = SboAnatomLocation.None
    · simp [Ecofit.fillAndValidAssembly, hs]
    · simp [Ecofit.fillAndValidAssembly, hs]
      split_ifs with h1 h2 h3 <;> simp_all
  · simp [Corail.fillAndValidAssembly, hs, hstem]
    split_ifs <;> simp_all

/-- Witness for C2: a left-side configuration whose stem label 0 is outside
every Corail sub-range and whose head label is valid validates to false,
leaving the stem product name untouched. -/
theorem fillAndValidAssembly_validity_iff_witness :
    (Corail.fillAndValidAssembly
        { requestedSide := SboAnatomLocation.Left, stemLabel := 0,
          headLabel := Corail.HEAD_P0 }).validAssembly = false ∧
      (Corail.fillAndValidAssembly
        { requestedSide := SboAnatomLocation.Left, stemLabel := 0,
          headLabel := Corail.HEAD_P0 }).stemProductName =
      ({ requestedSide := SboAnatomLocation.Left, stemLabel := 0,
          headLabel := Corail.HEAD_P0 } : SboFemImplantConfig).stemProductName :=
  fillAndValidAssembly_validity_iff.2.2
    { requestedSide := SboAnatomLocation.Left, stemLabel := 0,
      headLabel := Corail.HEAD_P0 } (by decide) (by decide)

/-- C10: with a requested side different from none and an unset cutplane
label, fillAndValidAssembly stamps the product's default CUTPLANE label
even when the structural checks fail, and a failed validation changes no
field besides validAssembly and the cutplane label.  Shown for the Corail,
Ecofit and Actis schemes. -/
theorem fillAndValidAssembly_failure_frame :
    (∀ c : SboFemImplantConfig, c.requestedSide ≠ SboAnatomLocation.None →
      c.cutPlaneLabel = none →
      (Corail.fillAndValidAssembly c).cutPlaneLabel = some Corail.CUTPLANE) ∧
    (∀ c : SboFemImplantConfig, c.requestedSide ≠ SboAnatomLocation.None →
      ¬(Corail.isStem c.stemLabel = true ∧ Corail.isHead c.headLabel = true ∧
          c.neckLabel = none) →
      (Corail.fillAndValidAssembly c).validAssembly = false ∧
      (Corail.fillAndValidAssembly c).requestedSide = c.requestedSide ∧
      (Corail.fillAndValidAssembly c).stemLabel = c.stemLabel ∧
      (Corail.fillAndValidAssembly c).headLabel = c.headLabel ∧
      (Corail.fillAndValidAssembly c).neckLabel = c.neckLabel ∧
      (Corail.fillAndValidAssembly c).stemProductName = c.stemProductName ∧
      (Corail.fillAndValidAssembly c).distalShaftProductName =
        c.distalShaftProductName ∧
      (Corail.fillAndValidAssembly c).headProductName = c.headProductName ∧
      (Corail.fillAndValidAssembly c).neckProductName = c.neckProductName ∧
      (Corail.fillAndValidAssembly c).implantSide = c.implantSide) ∧
    (∀ c : SboFemImplantConfig, c.requestedSide ≠ SboAnatomLocation.None →
      c.cutPlaneLabel = none →
      (Ecofit.fillAndValidAssembly c).cutPlaneLabel = some Ecofit.CUTPLANE) ∧
    (∀ c : SboFemImplantConfig, c.requestedSide ≠ SboAnatomLocation.None →
      ¬(Ecofit.isStem c.stemLabel = true ∧ Ecofit.isHead c.headLabel = true ∧
          c.neckLabel = none) →
      (Ecofit.fillAndValidAssembly c).validAssembly = false ∧
      (Ecofit.fillAndValidAssembly c).requestedSide = c.requestedSide ∧
      (Ecofit.fillAndValidAssembly c).stemLabel = c.stemLabel ∧
      (Ecofit.fillAndValidAssembly c).headLabel = c.headLabel ∧
      (Ecofit.fillAndValidAssembly c).neckLabel = c.neckLabel ∧
      (Ecofit.fillAndValidAssembly c).stemProductName = c.stemProductName ∧
      (Ecofit.fillAndValidAssembly c).distalShaftProductName =
        c.distalShaftProductName ∧
      (Ecofit.fillAndValidAssembly c).headProductName = c.headProductName ∧
      (Ecofit.fillAndValidAssembly c).neckProductName = c.neckProductName ∧
      (Ecofit.fillAndValidAssembly c).implantSide = c.implantSide) ∧
    (∀ c : SboFemImplantConfig, c.requestedSide ≠ SboAnatomLocation.None →
      c.cutPlaneLabel = none →
      (Actis.fillAndValidAssembly c).cutPlaneLabel = some Actis.CUTPLANE) ∧
    (∀ c : SboFemImplantConfig, c.requestedSide ≠ SboAnatomLocation.None →
      ¬(Actis.isStem c.stemLabel = true ∧ Actis.isHead c.headLabel = true ∧
          c.neckLabel = none) →
      (Actis.fillAndValidAssembly c).validAssembly = false ∧
      (Actis.fillAndValidAssembly c).requestedSide = c.requestedSide ∧
      (Actis.fillAndValidAssembly c).stemLabel = c.stemLabel ∧
      (Actis.fillAndValidAssembly c).headLabel = c.headLabel ∧
      (Actis.fillAndValidAssembly c).neckLabel = c.neckLabel ∧
      (Actis.fillAndValidAssembly c).stemProductName = c.stemProductName ∧
      (Actis.fillAndValidAssembly c).distalShaftProductName =
        c.distalShaftProductName ∧
      (Actis.fillAndValidAssembly c).headProductName = c.headProductName ∧
      (Actis.fillAndValidAssembly c).neckProductName = c.neckProductName ∧
      (Actis.fillAndValidAssembly c).implantSide = c.implantSide) := by
  refine ⟨fun c hs hcp => ?_, fun c hs hfail => ?_, fun c hs hcp => ?_,
    fun c hs hfail => ?_, fun c hs hcp => ?_, fun c hs hfail => ?_⟩
  · simp [Corail.fillAndValidAssembly, hs, hcp]
    split_ifs <;> simp_all
  · simp [Corail.fillAndValidAssembly, hs]
    split_ifs <;> simp_all
  · simp [Ecofit.fillAndValidAssembly, hs, hcp]
    split_ifs <;> simp_all
  · simp [Ecofit.fillAndValidAssembly, hs]
    split_ifs <;> simp_all
  · simp [Actis.fillAndValidAssembly, hs, hcp]
    split_ifs <;> simp_all
  · simp [Actis.fillAndValidAssembly, hs]
    split_ifs <;> simp_all

/-- Witness for C10: a right-side Actis configuration with an unset cutplane
and an invalid stem label gets the default cutplane label stamped while
validation fails. -/
theorem fillAndValidAssembly_failure_frame_witness :
    (Actis.fillAndValidAssembly
        { requestedSide := SboAnatomLocation.Right, stemLabel := 7,
          headLabel := Actis.HEAD_P0 }).cutPlaneLabel = some Actis.CUTPLANE :=
  fillAndValidAssembly_failure_frame.2.2.2.2.1
    { requestedSide := SboAnatomLocation.Right, stemLabel := 7,
      headLabel := Actis.HEAD_P0 } (by decide) rfl

/-- C7: for the Corail product, the stem label of the KS_STD135 sub-range
at offset 5 (catalog size KS 135° 13) with head label HEAD_P4 gives a
headToStemMatrix whose translation part equals the head-target point
TPR_01 plus 3.5 millimetres along the unit neck axis from RES_01 towards
TPR_01. -/
theorem headToStemMatrix_KS135_offset5_P4 :
    Corail.isCCD_KS_STD135 Corail.STEM_KS_STD135_5 = true ∧
    Corail.getOffset Corail.STEM_KS_STD135_5 = 5 ∧
    (Corail.headToStemMatrix Corail.HEAD_P4 Corail.STEM_KS_STD135_5).trans =
      Corail.getTPR_01 Corail.STEM_KS_STD135_5 +
        (3.5 : ℝ) • SboML.unit3 (Corail.getTPR_01 Corail.STEM_KS_STD135_5 -
          Corail.getRES_01 Corail.STEM_KS_STD135_5) := by
  refine ⟨by decide, by decide, ?_⟩
  simp only [Corail.headToStemMatrix, SboML.transMat3]
  norm_num [Corail.HEAD_P4, Corail.HEAD_M4, Corail.ProductRangeStartsAt]
